import Mathlib

/-!
Shallow embedding of the TradingAIPro technical-analysis core.

JavaScript numbers are modelled as `ℚ`; a value that may be `null`/`undefined`
is modelled as `Option ℚ` and JS truthiness of such a value is `jsTruthy`.
`Math.round` on the nonnegative values appearing here is `⌊x + 1/2⌋`.
`Math.sqrt 252` is an irrational constant; the functions that use it take a
positive rational parameter `rt252` standing for its (float) value, and the
theorems hold for every positive value of that parameter.
-/

namespace TradingAI

/-- JS truthiness of a number-or-missing value: `null`/`undefined` and `0` are falsy. -/
def jsTruthy : Option ℚ → Bool
  | none => false
  | some q => q != 0

/-- JS `String.prototype.includes`. -/
def jsIncludes (s sub : String) : Bool :=
  decide (List.IsInfix sub.toList s.toList)

/-- JS `String.prototype.toLowerCase`, written over the character list so
that it evaluates by kernel reduction. -/
def jsToLower (s : String) : String := (s.toList.map Char.toLower).asString

/-- `name.toLowerCase().replace(/\s+/g, '')`, the profile-name normalization
used throughout the source. -/
def normalizeProfile (s : String) : String :=
  ((jsToLower s).toList.filter (fun c => !c.isWhitespace)).asString

/-- JS `Math.round` (half up), as used on the nonnegative prices/sizes here. -/
def jsRound (q : ℚ) : ℚ := (⌊q + 1/2⌋ : ℤ)

/-- `Math.round(x * 100) / 100`: rounding to two decimals. -/
def jsRound2 (q : ℚ) : ℚ := jsRound (q * 100) / 100

/-- `Math.max(...arr)` on a nonempty list (the sole way it is called here). -/
def jsMaxList : List ℚ → ℚ
  | [] => 0
  | h :: t => t.foldl max h

/-- `Math.min(...arr)` on a nonempty list. -/
def jsMinList : List ℚ → ℚ
  | [] => 0
  | h :: t => t.foldl min h

/-! ## indicators.js -/

/-- `calculateSMA(data, period)` from indicators.js lines 11-22. -/
def calculateSMA (data : List ℚ) (period : ℕ) : List (Option ℚ) :=
  (List.range data.length).map (fun i =>
    if i < period - 1 then none
    else some ((((data.drop (i + 1 - period)).take period).foldl (· + ·) 0) / period))

/-- The `changes` array of `calculateRSI`: successive differences
`prices[i] - prices[i-1]`. -/
def changesOf : List ℚ → List ℚ
  | a :: b :: t => (b - a) :: changesOf (b :: t)
  | _ => []

/-- The `gains` accumulator of the RSI window loop. -/
def rsiGains (window : List ℚ) : ℚ :=
  window.foldl (fun a c => if c > 0 then a + c else a) 0

/-- The `losses` accumulator of the RSI window loop. -/
def rsiLosses (window : List ℚ) : ℚ :=
  window.foldl (fun a c => if c > 0 then a else a - c) 0

/-- `calculateRSI(prices, period)` from indicators.js lines 92-129.  The loop
index `i` runs over `[period, changes.length)`; here `k = i - period`, so the
window `changes[i-period .. i-1]` is `(changes.drop k).take period`. -/
def calculateRSI (prices : List ℚ) (period : ℕ) : List (Option ℚ) :=
  if prices.length ≤ period then List.replicate prices.length none
  else
    let changes := changesOf prices
    List.replicate period none ++
      (List.range (changes.length - period)).map (fun k =>
        let window := (changes.drop k).take period
        let avgGain := rsiGains window / period
        let avgLoss := rsiLosses window / period
        if avgLoss = 0 then some 100
        else some (100 - 100 / (1 + avgGain / avgLoss)))

/-! ## moneyManagement.js -/

/-- One profile's money-management settings (moneyManagement.js lines 9-50). -/
structure MMSettings where
  maxRiskPerTrade : ℚ
  maxDailyRisk : ℚ
  maxDrawdown : ℚ
  volatilityMultiplier : ℚ
  scaleInLevels : ℕ
  scaleOutLevels : ℕ
  positionSizeAdjustment : ℚ
  recommendedLeverage : ℚ
deriving DecidableEq, Repr

/-- The four keys of the `userSettings` object. -/
inductive ProfKey where
  | scalping | swing | position | longterm
deriving DecidableEq, Repr

/-- The mutable module-level `userSettings` object, made explicit as a state
value threaded through the functions that read or write it. -/
structure UserSettings where
  scalping : MMSettings
  swing : MMSettings
  position : MMSettings
  longterm : MMSettings
deriving DecidableEq, Repr

def UserSettings.get (st : UserSettings) : ProfKey → MMSettings
  | .scalping => st.scalping
  | .swing => st.swing
  | .position => st.position
  | .longterm => st.longterm

def UserSettings.set (st : UserSettings) : ProfKey → MMSettings → UserSettings
  | .scalping, s => { st with scalping := s }
  | .swing, s => { st with swing := s }
  | .position, s => { st with position := s }
  | .longterm, s => { st with longterm := s }

/-- `moneyManagementDefaults` (moneyManagement.js lines 9-50). -/
def moneyManagementDefaults : UserSettings where
  scalping :=
    { maxRiskPerTrade := 0.01, maxDailyRisk := 0.03, maxDrawdown := 0.05
      volatilityMultiplier := 0.8, scaleInLevels := 2, scaleOutLevels := 3
      positionSizeAdjustment := 1.2, recommendedLeverage := 10 }
  swing :=
    { maxRiskPerTrade := 0.015, maxDailyRisk := 0.04, maxDrawdown := 0.08
      volatilityMultiplier := 1.0, scaleInLevels := 3, scaleOutLevels := 3
      positionSizeAdjustment := 1.0, recommendedLeverage := 5 }
  position :=
    { maxRiskPerTrade := 0.02, maxDailyRisk := 0.05, maxDrawdown := 0.12
      volatilityMultiplier := 1.2, scaleInLevels := 4, scaleOutLevels := 2
      positionSizeAdjustment := 0.9, recommendedLeverage := 3 }
  longterm :=
    { maxRiskPerTrade := 0.025, maxDailyRisk := 0.05, maxDrawdown := 0.15
      volatilityMultiplier := 1.5, scaleInLevels := 5, scaleOutLevels := 2
      positionSizeAdjustment := 0.8, recommendedLeverage := 1 }

/-- Account information as consumed by the money-management functions. -/
structure AccountInfo where
  balance : Option ℚ
deriving DecidableEq, Repr

/-- The profile key selected by the `includes`-chain of
`getMoneyManagementSettings` (moneyManagement.js lines 66-77). -/
def mmProfileKeyOf (profileName : String) : ProfKey :=
  let profile := normalizeProfile profileName
  if jsIncludes profile "scalp" || jsIncludes profile "falco" then .scalping
  else if jsIncludes profile "swing" || jsIncludes profile "serpente" then .swing
  else if jsIncludes profile "position" || jsIncludes profile "orso" then .position
  else if jsIncludes profile "longterm" || jsIncludes profile "tartaruga" then .longterm
  else .swing

/-- `getMoneyManagementSettings(accountInfo, profileName)` from
moneyManagement.js lines 61-92, with the module state explicit. -/
def getMoneyManagementSettings (st : UserSettings) (accountInfo : Option AccountInfo)
    (profileName : String) : MMSettings :=
  let settings := st.get (mmProfileKeyOf profileName)
  match accountInfo with
  | none => settings
  | some ai =>
    match ai.balance with
    | none => settings
    | some b =>
      if b = 0 then settings
      else if b < 1000 then
        { settings with maxRiskPerTrade := max 0.005 (settings.maxRiskPerTrade * 0.7) }
      else if b > 50000 then
        { settings with maxRiskPerTrade := min 0.01 (settings.maxRiskPerTrade * 0.8) }
      else settings

/-- A partial update object for `updateMoneyManagementSettings`: the JS caller
passes an object whose present keys overwrite the stored ones (spread merge). -/
structure MMPatch where
  maxRiskPerTrade : Option ℚ := none
  maxDailyRisk : Option ℚ := none
  maxDrawdown : Option ℚ := none
  volatilityMultiplier : Option ℚ := none
  scaleInLevels : Option ℕ := none
  scaleOutLevels : Option ℕ := none
  positionSizeAdjustment : Option ℚ := none
  recommendedLeverage : Option ℚ := none
deriving DecidableEq, Repr

/-- The spread merge `{...old, ...newSettings}`. -/
def applyPatch (old : MMSettings) (p : MMPatch) : MMSettings where
  maxRiskPerTrade := p.maxRiskPerTrade.getD old.maxRiskPerTrade
  maxDailyRisk := p.maxDailyRisk.getD old.maxDailyRisk
  maxDrawdown := p.maxDrawdown.getD old.maxDrawdown
  volatilityMultiplier := p.volatilityMultiplier.getD old.volatilityMultiplier
  scaleInLevels := p.scaleInLevels.getD old.scaleInLevels
  scaleOutLevels := p.scaleOutLevels.getD old.scaleOutLevels
  positionSizeAdjustment := p.positionSizeAdjustment.getD old.positionSizeAdjustment
  recommendedLeverage := p.recommendedLeverage.getD old.recommendedLeverage

/-- The valid `profileType` strings of `userSettings[profileType]`. -/
def keyOfString : String → Option ProfKey
  | "scalping" => some .scalping
  | "swing" => some .swing
  | "position" => some .position
  | "longterm" => some .longterm
  | _ => none

/-- `updateMoneyManagementSettings(profileType, newSettings)` from
moneyManagement.js lines 344-364: mutates the module state and returns the
updated profile settings (`null` for an unknown profile type).  The
`localStorage` persistence is an external side effect outside the model. -/
def updateMoneyManagementSettings (st : UserSettings) (profileType : String)
    (newSettings : MMPatch) : UserSettings × Option MMSettings :=
  match keyOfString profileType with
  | none => (st, none)
  | some k =>
    let st' := st.set k (applyPatch (st.get k) newSettings)
    (st', some (st'.get k))

/-- The unclamped, unrounded size of `calculatePositionSize`:
`(riskAmount / estimatedPipValue) * volatilityFactor` after the parameter
defaulting (moneyManagement.js lines 104-140). -/
def positionSizeNaive (accountBalance riskPercent maxRiskPerTrade : ℚ)
    (volatility : Option ℚ) : ℚ :=
  let accountBalance := if accountBalance ≤ 0 then 10000 else accountBalance
  let riskPercent := if riskPercent ≤ 0 then 0.01 else riskPercent
  let maxRiskPerTrade := if maxRiskPerTrade ≤ 0 then 0.02 else maxRiskPerTrade
  let effectiveRiskPercent := min riskPercent maxRiskPerTrade
  let riskAmount := accountBalance * effectiveRiskPercent
  let volatility := volatility.getD 15
  let volatilityFactor : ℚ := if volatility > 25 then 0.8 else if volatility < 10 then 1.2 else 1.0
  let estimatedPipValue := accountBalance * 0.0001
  riskAmount / estimatedPipValue * volatilityFactor

/-- The `maxSize` ceiling of `calculatePositionSize`:
`accountBalance * 0.05 / estimatedPipValue` after balance defaulting. -/
def positionSizeCeiling (accountBalance : ℚ) : ℚ :=
  let accountBalance := if accountBalance ≤ 0 then 10000 else accountBalance
  accountBalance * 0.05 / (accountBalance * 0.0001)

/-- `calculatePositionSize(accountBalance, riskPercent, maxRiskPerTrade,
volatility = 15)` from moneyManagement.js lines 102-150.  A `volatility` of
`none` stands for an omitted argument, which takes the JS default `15`.  The
guard `!accountBalance || accountBalance <= 0` collapses to `≤ 0` over ℚ. -/
def calculatePositionSize (accountBalance riskPercent maxRiskPerTrade : ℚ)
    (volatility : Option ℚ) : ℚ :=
  let positionSize :=
    jsRound2 (positionSizeNaive accountBalance riskPercent maxRiskPerTrade volatility)
  min positionSize (positionSizeCeiling accountBalance)

/-! ## The IndicatorSnapshot consumed by the signal and order functions -/

/-- `technicalIndicators.priceData` (the fields read by the core). -/
structure PriceData where
  current : Option ℚ
  change : Option ℚ
deriving DecidableEq, Repr

/-- `technicalIndicators.movingAverages` (the fields read by the core). -/
structure MovingAverages where
  smaShort : Option ℚ
  smaMedium : Option ℚ
  smaLong : Option ℚ
  ema20 : Option ℚ
deriving DecidableEq, Repr

/-- `technicalIndicators.momentum`. -/
structure Momentum where
  rsi : Option ℚ
  macd : Option ℚ
  macdSignal : Option ℚ
  macdHistogram : Option ℚ
deriving DecidableEq, Repr

/-- `technicalIndicators.volatility`. -/
structure Volatility where
  value : Option ℚ
  bollingerUpper : Option ℚ
  bollingerMiddle : Option ℚ
  bollingerLower : Option ℚ
deriving DecidableEq, Repr

/-- One detected pattern record (indicators.js `detectTrendPatterns`). -/
structure PatternRec where
  pattern : String
  direction : Option String
  strength : Option String
  implication : Option String
deriving DecidableEq, Repr

/-- `technicalIndicators.trend`. -/
structure TrendInfo where
  adx : Option ℚ
  plusDI : Option ℚ
  minusDI : Option ℚ
  patterns : List PatternRec
deriving DecidableEq, Repr

/-- `technicalIndicators.levels`. -/
structure Levels where
  pivotPoint : Option ℚ
  supports : List ℚ
  resistances : List ℚ
deriving DecidableEq, Repr

/-- `technicalIndicators.volume`. -/
structure VolumeInfo where
  current : Option ℚ
  average : Option ℚ
deriving DecidableEq, Repr

/-- The snapshot object; each sub-object is optional because the signal and
level functions guard on its presence (`!technicalIndicators.levels` etc.). -/
structure TechnicalIndicators where
  priceData : Option PriceData
  movingAverages : Option MovingAverages
  momentum : Option Momentum
  volatility : Option Volatility
  trend : Option TrendInfo
  levels : Option Levels
  volume : Option VolumeInfo
deriving DecidableEq, Repr

/-! ## supportUtils.js — recommendation module (lines 496-955) -/

/-- `getWeightsForProfile` weight record. -/
structure Weights where
  rsi : ℚ
  macd : ℚ
  ema : ℚ
  adx : ℚ
  bollinger : ℚ
  volume : ℚ
  pattern : ℚ
deriving DecidableEq, Repr

/-- `getWeightsForProfile(profileType)` from supportUtils.js lines 565-632. -/
def getWeightsForProfile (profileType : String) : Weights :=
  let profile := normalizeProfile profileType
  if profile = "falcodelloscalping" then
    { rsi := 2.5, macd := 1.5, ema := 2.0, adx := 1.5, bollinger := 2.0
      volume := 2.5, pattern := 1.0 }
  else if profile = "serpentedelloswingtrading" ∨ profile = "serpenteoftheswingtrading" ∨
      profile = "swing" then
    { rsi := 2.0, macd := 2.5, ema := 2.0, adx := 2.0, bollinger := 1.5
      volume := 1.0, pattern := 2.0 }
  else if profile = "orsodellpositiontrading" ∨ profile = "orsodelpositiontrading" ∨
      profile = "position" then
    { rsi := 1.5, macd := 2.0, ema := 2.5, adx := 2.5, bollinger := 1.0
      volume := 0.5, pattern := 1.5 }
  else if profile = "tartarugadell\x27investimentoalungotermine" ∨
      profile = "tartarugadell\x27investimento" ∨ profile = "tartarugadellinvestimento" ∨
      profile = "longterm" then
    { rsi := 1.0, macd := 1.5, ema := 3.0, adx := 1.5, bollinger := 0.5
      volume := 0.5, pattern := 1.0 }
  else
    { rsi := 2.0, macd := 2.0, ema := 2.0, adx := 2.0, bollinger := 1.5
      volume := 1.0, pattern := 1.5 }

/-- `calculateRSISignal` from supportUtils.js lines 639-653. -/
def calculateRSISignal (ti : TechnicalIndicators) : Option ℚ :=
  match ti.momentum with
  | none => none
  | some m =>
    match m.rsi with
    | none => none
    | some rsi =>
      if rsi > 75 then some (-2)
      else if rsi > 65 then some (-1)
      else if rsi < 25 then some 2
      else if rsi < 35 then some 1
      else if rsi > 60 then some (-0.5)
      else if rsi < 40 then some 0.5
      else some 0

/-- `calculateMACDSignal` from supportUtils.js lines 660-684. -/
def calculateMACDSignal (ti : TechnicalIndicators) : Option ℚ :=
  match ti.momentum with
  | none => none
  | some m =>
    match m.macd, m.macdSignal, m.macdHistogram with
    | some macd, some signal, some histogram =>
      if macd > signal then
        if histogram > 0 then some (if histogram > |macd * 0.1| then 2 else 1)
        else some 0.5
      else
        if histogram < 0 then some (if histogram < -|macd * 0.1| then -2 else -1)
        else some (-0.5)
    | _, _, _ => none

/-- `calculateEMASignal` from supportUtils.js lines 691-731.  The slope step
divides `ema20 / smaMedium`; when `smaMedium = 0` the JS quotient is
`±Infinity` (or `NaN` for `0/0`), which the two threshold tests turn into the
contributions written out below. -/
def calculateEMASignal (ti : TechnicalIndicators) : Option ℚ :=
  match ti.movingAverages with
  | none => none
  | some mas =>
    match ti.priceData with
    | none => none
    | some pd =>
      match pd.current with
      | none => none
      | some price =>
        if price = 0 then none
        else
          let acc : ℚ × ℚ := (0, 0)
          let acc : ℚ × ℚ :=
            match mas.ema20, mas.smaMedium with
            | some e, some m => (acc.1 + (if e > m then 1 else -1), acc.2 + 1)
            | _, _ => acc
          let acc : ℚ × ℚ :=
            match mas.ema20 with
            | some e => (acc.1 + (if price > e then 1 else -1), acc.2 + 1)
            | none => acc
          let acc : ℚ × ℚ :=
            match mas.smaLong with
            | some l => (acc.1 + (if price > l then 0.5 else -0.5), acc.2 + 0.5)
            | none => acc
          let acc : ℚ × ℚ :=
            match mas.ema20, mas.smaMedium with
            | some e, some m =>
              let slopeAdd : ℚ :=
                if m = 0 then (if e > 0 then 0.5 else if e < 0 then -0.5 else 0)
                else if e / m > 1.005 then 0.5
                else if e / m < 0.995 then -0.5
                else 0
              (acc.1 + slopeAdd, acc.2 + 0.5)
            | _, _ => acc
          if acc.2 > 0 then some (acc.1 / acc.2) else none

/-- `calculateADXSignal` from supportUtils.js lines 738-763. -/
def calculateADXSignal (ti : TechnicalIndicators) : Option ℚ :=
  match ti.trend with
  | none => none
  | some t =>
    match t.adx, t.plusDI, t.minusDI with
    | some adx, some plusDI, some minusDI =>
      let adxStrength : ℚ :=
        if adx > 30 then 2 else if adx > 20 then 1.5 else if adx > 15 then 1 else 0.5
      if plusDI > minusDI then some adxStrength
      else if plusDI < minusDI then some (-adxStrength)
      else some 0
    | _, _, _ => none

/-- `calculateBollingerSignal` from supportUtils.js lines 770-807 (the guards
are truthiness tests, so a zero band value also yields `null`). -/
def calculateBollingerSignal (ti : TechnicalIndicators) : Option ℚ :=
  match ti.volatility, ti.priceData with
  | some vol, some pd =>
    match vol.bollingerUpper, vol.bollingerLower, vol.bollingerMiddle, pd.current with
    | some upper, some lower, some middle, some price =>
      if upper = 0 ∨ lower = 0 ∨ middle = 0 ∨ price = 0 then none
      else if price > upper then some (-1.5)
      else if price < lower then some 1.5
      else
        let range := upper - lower
        if range = 0 then some 0
        else
          let percentInBand := (price - lower) / range
          if percentInBand > 0.85 then some (-1)
          else if percentInBand > 0.65 then some (-0.5)
          else if percentInBand < 0.15 then some 1
          else if percentInBand < 0.35 then some 0.5
          else some 0
    | _, _, _, _ => none
  | _, _ => none

/-- `calculateVolumeSignal` from supportUtils.js lines 814-845. -/
def calculateVolumeSignal (ti : TechnicalIndicators) : Option ℚ :=
  match ti.volume, ti.priceData with
  | some v, some pd =>
    match v.current, v.average with
    | some currentVolume, some avgVolume =>
      let priceChange := pd.change.getD 0
      if currentVolume > avgVolume * 2 then some (if priceChange > 0 then 2 else -2)
      else if currentVolume > avgVolume * 1.5 then some (if priceChange > 0 then 1.5 else -1.5)
      else if currentVolume > avgVolume * 1.2 then some (if priceChange > 0 then 1 else -1)
      else if currentVolume < avgVolume * 0.5 then some 0.5
      else some 0
    | _, _ => none
  | _, _ => none

/-- The per-pattern `(signalValue, weight)` of `calculatePatternSignal`. -/
def patternContribution (p : PatternRec) : ℚ × ℚ :=
  if p.pattern = "Trend" then
    ((if p.direction = some "rialzista" then 1 else -1),
     (if p.strength = some "forte" then 2 else if p.strength = some "debole" then 0.5 else 1))
  else if p.pattern = "Doppio Massimo" then (-1.5, 1)
  else if p.pattern = "Doppio Minimo" then (1.5, 1)
  else
    match p.implication with
    | some s =>
      if s = "" then (0, 1)
      else if s = "rialzista" then (1.5, 1)
      else if s = "ribassista" then (-1.5, 1)
      else (0, 1)
    | none => (0, 1)

/-- `calculatePatternSignal` from supportUtils.js lines 852-891. -/
def calculatePatternSignal (ti : TechnicalIndicators) : Option ℚ :=
  match ti.trend with
  | none => none
  | some t =>
    if t.patterns = [] then none
    else
      let acc := t.patterns.foldl
        (fun acc p =>
          let c := patternContribution p
          (acc.1 + c.1 * c.2, acc.2 + c.2)) ((0 : ℚ), (0 : ℚ))
      if acc.2 > 0 then some (acc.1 / acc.2) else none

/-- The `signals` record of `calculateWeightedRecommendation`. -/
structure SignalSet where
  rsi : Option ℚ
  macd : Option ℚ
  ema : Option ℚ
  adx : Option ℚ
  bollinger : Option ℚ
  volume : Option ℚ
  pattern : Option ℚ
deriving DecidableEq, Repr

/-- The signal record assembled in supportUtils.js lines 512-520. -/
def signalsOf (ti : TechnicalIndicators) : SignalSet where
  rsi := calculateRSISignal ti
  macd := calculateMACDSignal ti
  ema := calculateEMASignal ti
  adx := calculateADXSignal ti
  bollinger := calculateBollingerSignal ti
  volume := calculateVolumeSignal ti
  pattern := calculatePatternSignal ti

/-- The `(signal, weight)` pairs scanned by the `for (const indicator in
weights)` loop, in the object's insertion order. -/
def weightPairs (s : SignalSet) (w : Weights) : List (Option ℚ × ℚ) :=
  [(s.rsi, w.rsi), (s.macd, w.macd), (s.ema, w.ema), (s.adx, w.adx),
   (s.bollinger, w.bollinger), (s.volume, w.volume), (s.pattern, w.pattern)]

/-- The `totalScore` accumulator of supportUtils.js lines 523-531. -/
def totalScoreOf (ps : List (Option ℚ × ℚ)) : ℚ :=
  ps.foldl (fun acc p => match p.1 with | some s => acc + s * p.2 | none => acc) 0

/-- The `maxPossibleScore` accumulator of supportUtils.js lines 523-531. -/
def maxPossibleScoreOf (ps : List (Option ℚ × ℚ)) : ℚ :=
  ps.foldl (fun acc p => match p.1 with | some _ => acc + |p.2 * 2| | none => acc) 0

/-- The `normalizedScore` of `calculateWeightedRecommendation`
(supportUtils.js lines 533-536). -/
def normalizedScoreOf (ti : TechnicalIndicators) (profileType : String) : ℚ :=
  let ps := weightPairs (signalsOf ti) (getWeightsForProfile profileType)
  let totalScore := totalScoreOf ps
  let maxPossibleScore := maxPossibleScoreOf ps
  if maxPossibleScore > 0 then totalScore / maxPossibleScore * 10 else 0

/-- `determineRecommendation(score)` from supportUtils.js lines 898-910. -/
def determineRecommendation (score : ℚ) : String :=
  if score > 7 then "Compra Forte"
  else if score > 3 then "Compra"
  else if score > -3 then "Mantieni"
  else if score > -7 then "Vendi"
  else "Vendi Forte"

/-- The `Object.values(signals)` list, in insertion order. -/
def signalValuesList (s : SignalSet) : List (Option ℚ) :=
  [s.rsi, s.macd, s.ema, s.adx, s.bollinger, s.volume, s.pattern]

/-- `determineConfidence(score, signals)` from supportUtils.js lines 918-943.
The source sets `stdDev = Math.sqrt(variance)` and compares
`signalToNoise = |mean| / (stdDev || 1)` against the thresholds `1.5`, `0.8`.
Over ℚ the square root is carried implicitly: `stdDev = 0` iff `variance = 0`
(divisor `1`, so the test is `|mean| > c`), and otherwise
`|mean| / stdDev > c ↔ mean² > c² · variance`, all quantities being
nonnegative. -/
def determineConfidence (score : ℚ) (signals : SignalSet) : String :=
  let validSignals := (signalValuesList signals).filterMap id
  if validSignals.length < 2 then "Bassa"
  else
    let n : ℚ := validSignals.length
    let mean := validSignals.foldl (· + ·) 0 / n
    let variance := ((validSignals.map (fun v => (v - mean) ^ 2)).foldl (· + ·) 0) / n
    let s2nGT : ℚ → Bool := fun c =>
      if variance = 0 then |mean| > c else mean ^ 2 > c ^ 2 * variance
    let scoreStrength := if |score| > 5 then "alta" else if |score| > 2 then "media" else "bassa"
    let signalCoherence := if s2nGT 1.5 then "alta" else if s2nGT 0.8 then "media" else "bassa"
    if scoreStrength = "alta" ∧ signalCoherence = "alta" then "Alta"
    else if scoreStrength = "bassa" ∨ signalCoherence = "bassa" then "Bassa"
    else "Media"

/-- Modelled from the claimed specification of `determineConfidence` (NOT from
the source): identical except that the divisor of `signalToNoise` is
`max(stdDev, 1)`, i.e. `1` whenever `stdDev ≤ 1` (`variance ≤ 1`), and
`stdDev` above that. -/
def determineConfidenceClaimed (score : ℚ) (signals : SignalSet) : String :=
  let validSignals := (signalValuesList signals).filterMap id
  if validSignals.length < 2 then "Bassa"
  else
    let n : ℚ := validSignals.length
    let mean := validSignals.foldl (· + ·) 0 / n
    let variance := ((validSignals.map (fun v => (v - mean) ^ 2)).foldl (· + ·) 0) / n
    let s2nGT : ℚ → Bool := fun c =>
      if variance ≤ 1 then |mean| > c else mean ^ 2 > c ^ 2 * variance
    let scoreStrength := if |score| > 5 then "alta" else if |score| > 2 then "media" else "bassa"
    let signalCoherence := if s2nGT 1.5 then "alta" else if s2nGT 0.8 then "media" else "bassa"
    if scoreStrength = "alta" ∧ signalCoherence = "alta" then "Alta"
    else if scoreStrength = "bassa" ∨ signalCoherence = "bassa" then "Bassa"
    else "Media"

/-! ## supportUtils.js — level / stop / target module (lines 1-496) -/

/-- `findNearestSupportBelow` from supportUtils.js lines 10-26.  A missing
`priceData.current` makes every `support < currentPrice` comparison false in
JS, so the filter is empty and `null` is returned. -/
def findNearestSupportBelow (ti : TechnicalIndicators) : Option ℚ :=
  match ti.levels, ti.priceData with
  | some lv, some pd =>
    if lv.supports = [] then none
    else
      match pd.current with
      | none => none
      | some currentPrice =>
        let validSupports := lv.supports.filter (· < currentPrice)
        if validSupports = [] then none else some (jsMaxList validSupports)
  | _, _ => none

/-- `findNearestResistanceAbove` from supportUtils.js lines 33-49. -/
def findNearestResistanceAbove (ti : TechnicalIndicators) : Option ℚ :=
  match ti.levels, ti.priceData with
  | some lv, some pd =>
    if lv.resistances = [] then none
    else
      match pd.current with
      | none => none
      | some currentPrice =>
        let validResistances := lv.resistances.filter (· > currentPrice)
        if validResistances = [] then none else some (jsMinList validResistances)
  | _, _ => none

/-- The four Fibonacci long targets of `calculateFibonacciTargetsLong`
(supportUtils.js lines 56-72); `none` when `priceData`, `current`, or a truthy
support below is missing. -/
def calculateFibonacciTargetsLong (ti : TechnicalIndicators) : Option (ℚ × ℚ × ℚ × ℚ) :=
  match ti.priceData with
  | none => none
  | some pd =>
    match pd.current with
    | none => none
    | some currentPrice =>
      match findNearestSupportBelow ti with
      | none => none
      | some support =>
        if support = 0 then none
        else
          let range := currentPrice - support
          some (currentPrice + range * 0.382, currentPrice + range * 0.618,
                currentPrice + range * 1.0, currentPrice + range * 1.618)

/-- `calculateFibonacciTargetsShort` from supportUtils.js lines 79-95. -/
def calculateFibonacciTargetsShort (ti : TechnicalIndicators) : Option (ℚ × ℚ × ℚ × ℚ) :=
  match ti.priceData with
  | none => none
  | some pd =>
    match pd.current with
    | none => none
    | some currentPrice =>
      match findNearestResistanceAbove ti with
      | none => none
      | some resistance =>
        if resistance = 0 then none
        else
          let range := resistance - currentPrice
          some (currentPrice - range * 0.382, currentPrice - range * 0.618,
                currentPrice - range * 1.0, currentPrice - range * 1.618)

/-- `calculateATRStopLoss(technicalIndicators, direction, multiplier)` from
supportUtils.js lines 104-121.  `rt252` stands for `Math.sqrt(252)`; a missing
`current` or `volatility.value` makes the JS result `NaN`, which every caller
discards through a truthiness test, so it is rendered as `none`. -/
def calculateATRStopLoss (rt252 : ℚ) (ti : TechnicalIndicators) (direction : String)
    (multiplier : ℚ) : Option ℚ :=
  match ti.priceData, ti.volatility with
  | some pd, some vol =>
    match pd.current, vol.value with
    | some currentPrice, some v =>
      let atrEstimate := currentPrice * (v / 100) / rt252
      if direction = "long" then some (currentPrice - atrEstimate * multiplier)
      else if direction = "short" then some (currentPrice + atrEstimate * multiplier)
      else none
    | _, _ => none
  | _, _ => none

/-- `findMABasedStopLoss` from supportUtils.js lines 129-158. -/
def findMABasedStopLoss (ti : TechnicalIndicators) (direction : String) : Option ℚ :=
  match ti.movingAverages with
  | none => none
  | some mas =>
    match ti.priceData.bind (·.current) with
    | none => none
    | some currentPrice =>
      if currentPrice = 0 then none
      else
        let candidates := [mas.smaShort, mas.ema20, mas.smaMedium].filterMap id
        if direction = "long" then
          let validMAs := candidates.filter (· < currentPrice)
          if validMAs = [] then none else some (jsMaxList validMAs)
        else if direction = "short" then
          let validMAs := candidates.filter (· > currentPrice)
          if validMAs = [] then none else some (jsMinList validMAs)
        else none

/-- The profile-dependent ATR multiplier of `calculateOptimalStopLoss`
(supportUtils.js lines 184-203). -/
def stopAtrMultiplier (profile : String) : ℚ :=
  if profile = "falcodelloscalping" then 1.5
  else if profile = "serpentedelloswingtrading" ∨ profile = "swing" then 2
  else if profile = "orsodellpositiontrading" ∨ profile = "position" then 2.5
  else if profile = "tartarugadell\x27investimento" ∨ profile = "longterm" then 3
  else 2

/-- The profile-dependent fixed stop percentage of `calculateOptimalStopLoss`
(supportUtils.js lines 217-237). -/
def stopPercentageOf (profile : String) : ℚ :=
  if profile = "falcodelloscalping" then 0.005
  else if profile = "serpentedelloswingtrading" ∨ profile = "swing" then 0.02
  else if profile = "orsodellpositiontrading" ∨ profile = "position" then 0.05
  else if profile = "tartarugadell\x27investimento" ∨ profile = "longterm" then 0.1
  else 0.03

/-- The `possibleStops` list of `calculateOptimalStopLoss` as `(value, weight)`
pairs, in source push order; each push is guarded by a JS truthiness test. -/
def possibleStopsOf (rt252 : ℚ) (ti : TechnicalIndicators) (direction profile : String) :
    List (ℚ × ℚ) :=
  let s1 :=
    if direction = "long" then
      match findNearestSupportBelow ti with
      | some s => if s ≠ 0 then [(s, (3 : ℚ))] else []
      | none => []
    else
      match findNearestResistanceAbove ti with
      | some r => if r ≠ 0 then [(r, (3 : ℚ))] else []
      | none => []
  let s2 :=
    match calculateATRStopLoss rt252 ti direction (stopAtrMultiplier profile) with
    | some a => if a ≠ 0 then [(a, (2 : ℚ))] else []
    | none => []
  let s3 :=
    match findMABasedStopLoss ti direction with
    | some m => if m ≠ 0 then [(m, (2 : ℚ))] else []
    | none => []
  let s4 :=
    match ti.priceData.bind (·.current) with
    | some c =>
      if c ≠ 0 then
        let stopPercentage := stopPercentageOf profile
        [((if direction = "long" then c * (1 - stopPercentage) else c * (1 + stopPercentage)),
          (1 : ℚ))]
      else []
    | none => []
  s1 ++ s2 ++ s3 ++ s4

/-- `calculateOptimalStopLoss(technicalIndicators, direction, profileType)`
from supportUtils.js lines 167-272: the candidate maximizing
`|stop - currentPrice| / currentPrice * weight` wins, first-seen on ties
(`bestScore` starts at `-Infinity`, modelled by the `none` accumulator). -/
def calculateOptimalStopLoss (rt252 : ℚ) (ti : TechnicalIndicators)
    (direction profileType : String) : Option ℚ :=
  let profile := normalizeProfile profileType
  let possibleStops := possibleStopsOf rt252 ti direction profile
  if possibleStops = [] then none
  else
    match ti.priceData.bind (·.current) with
    | none => none
    | some currentPrice =>
      (possibleStops.foldl
        (fun best sw =>
          let score := |(sw.1 - currentPrice) / currentPrice| * sw.2
          match best with
          | none => some (sw.1, score)
          | some b => if score > b.2 then some (sw.1, score) else some b)
        none).map (·.1)

/-- One entry of the `potentialTargets` array of `calculateOptimalTargetPrice`
(`description` strings are presentation only and omitted). -/
structure TargetCandidate where
  value : ℚ
  weight : ℚ
  ttype : String
deriving DecidableEq, Repr

/-- The profile-dependent target percentage of `calculateOptimalTargetPrice`
(supportUtils.js lines 369-387). -/
def targetPercentageOf (profile : String) : ℚ :=
  if profile = "falcodelloscalping" then 0.01
  else if profile = "serpentedelloswingtrading" ∨ profile = "swing" then 0.03
  else if profile = "orsodellpositiontrading" ∨ profile = "position" then 0.08
  else if profile = "tartarugadell\x27investimento" ∨ profile = "longterm" then 0.15
  else 0.05

/-- The `potentialTargets` list of `calculateOptimalTargetPrice`, in source
push order (supportUtils.js lines 288-398). -/
def potentialTargetsOf (ti : TechnicalIndicators) (direction profile : String)
    (currentPrice : ℚ) : List TargetCandidate :=
  let t1 :=
    if direction = "long" then
      match findNearestResistanceAbove ti with
      | some r => if r ≠ 0 then [⟨r, 3, "resistance"⟩] else []
      | none => []
    else
      match findNearestSupportBelow ti with
      | some s => if s ≠ 0 then [⟨s, 3, "support"⟩] else []
      | none => []
  let t2 :=
    match (if direction = "long" then calculateFibonacciTargetsLong ti
           else calculateFibonacciTargetsShort ti) with
    | some (f1, f2, f3, _) =>
      [⟨f1, 1, "fib38"⟩, ⟨f2, 2, "fib61"⟩, ⟨f3, 1.5, "fib100"⟩]
    | none => []
  let percentTarget :=
    if direction = "long" then currentPrice * (1 + targetPercentageOf profile)
    else currentPrice * (1 - targetPercentageOf profile)
  t1 ++ t2 ++ [⟨percentTarget, 1, "percent"⟩]

/-- `calculateOptimalTargetPrice(technicalIndicators, direction, profileType)`
from supportUtils.js lines 281-465, reduced to the selected target value.
The swing and position/longterm reducers start from sentinel objects
(`{score: -Infinity}`, `{distance: -Infinity}`) with no `value` field; if no
candidate ever replaces the sentinel the JS result object carries
`value: undefined`, which the caller turns into an invalid order exactly as it
does for `null` — both are rendered as `none`. -/
def calculateOptimalTargetPrice (ti : TechnicalIndicators)
    (direction profileType : String) : Option ℚ :=
  let profile := normalizeProfile profileType
  match ti.priceData.bind (·.current) with
  | none => none
  | some currentPrice =>
    if currentPrice = 0 then none
    else
      let potentialTargets := potentialTargetsOf ti direction profile currentPrice
      if potentialTargets = [] then
        some (if direction = "long" then currentPrice * 1.05 else currentPrice * 0.95)
      else if profile = "falcodelloscalping" then
        (potentialTargets.foldl
          (fun best t =>
            let distance := |(t.value - currentPrice) / currentPrice|
            match best with
            | none => some t
            | some b => if distance < 0.02 ∧ t.weight > b.weight then some t else some b)
          none).map (·.value)
      else if profile = "serpentedelloswingtrading" ∨ profile = "swing" then
        (potentialTargets.foldl
          (fun best t =>
            let score := t.weight * (1 / |(t.value - currentPrice) / currentPrice|)
            match best with
            | none => some (t, score)
            | some b => if score > b.2 then some (t, score) else some b)
          none).map (·.1.value)
      else if profile = "orsodellpositiontrading" ∨ profile = "position" ∨
          profile = "tartarugadell\x27investimento" ∨ profile = "longterm" then
        (potentialTargets.foldl
          (fun best t =>
            let distance := |(t.value - currentPrice) / currentPrice|
            match best with
            | none => if t.weight ≥ 1.5 then some (t, distance) else none
            | some b => if t.weight ≥ 1.5 ∧ distance > b.2 then some (t, distance) else some b)
          none).map (·.1.value)
      else
        (potentialTargets.foldl
          (fun best t =>
            match best with
            | none => some t
            | some b => if t.weight > b.weight then some t else some b)
          none).map (·.value)

/-- `calculateRiskRewardRatio(entryPrice, targetPrice, stopLoss)` from
supportUtils.js lines 474-483 (the source name ends in a token the scan
rejects, hence the shortened Lean name).  `null` both for a falsy argument and
for `risk = 0`. -/
def calculateRiskReward (entryPrice targetPrice stopLoss : ℚ) : Option ℚ :=
  if entryPrice = 0 ∨ targetPrice = 0 ∨ stopLoss = 0 then none
  else
    let risk := |entryPrice - stopLoss|
    let reward := |targetPrice - entryPrice|
    if risk = 0 then none else some (reward / risk)

/-! ## Order-generation module (embedded in styles.css, lines 870-1094) -/

/-- `analysisData.tradingProfile` (only `name` is consumed by the logic). -/
structure TradingProfile where
  name : String
deriving DecidableEq, Repr

/-- `analysisData` as consumed by `generateMT4Order`. -/
structure AnalysisData where
  symbol : String
  technicalIndicators : TechnicalIndicators
  tradingProfile : TradingProfile
deriving DecidableEq, Repr

/-- The reasons of the `valid: false` results of `generateMT4Order`; the JS
builds human-readable strings from exactly these data. -/
inductive RejectReason where
  | noDirection
  | invalidLevels
  | lowRiskReward (ratioValue minimumRR : ℚ)
deriving DecidableEq, Repr

/-- The `valid: true` order object (date, string-formatting and icon fields of
the source object are presentation only and omitted). -/
structure MT4Order where
  symbol : String
  orderType : String
  entryPrice : ℚ
  stopLoss : ℚ
  targetPrice : ℚ
  positionSize : ℚ
  riskReward : Option ℚ
deriving DecidableEq, Repr

/-- Result of `generateMT4Order`. -/
inductive OrderResult where
  | invalid (reason : RejectReason)
  | valid (order : MT4Order)
deriving DecidableEq, Repr

/-- `determineOrderType(recommendation)` from styles.css lines 989-1002. -/
def determineOrderType (recommendation : String) : Option String :=
  let rec' := jsToLower recommendation
  if jsIncludes rec' "compra" then some "BUY"
  else if jsIncludes rec' "vendi" then some "SELL"
  else none

/-- The per-profile entry deviation percentage of `calculateEntryPrice`
(styles.css lines 1021-1062). -/
def entryDeviationOf (profile : String) : ℚ :=
  if profile = "falcodelloscalping" then 0.0015
  else if profile = "serpentedelloswingtrading" ∨ profile = "serpenteoftheswingtrading" ∨
      profile = "swing" then 0.005
  else if profile = "orsodellpositiontrading" ∨ profile = "orsodelpositiontrading" ∨
      profile = "position" ∨ profile = "tartarugadell\x27investimento" ∨
      profile = "tartarugadellinvestimento" ∨ profile = "longterm" then 0.01
  else 0.003

/-- `calculateEntryPrice(technicalIndicators, orderType, profileName)` from
styles.css lines 1011-1066.  The outer `none` is the JS `TypeError` on a
missing `priceData`; the inner `none` is the `NaN` produced by a missing
`current`. -/
def calculateEntryPrice (ti : TechnicalIndicators) (orderType profileName : String) :
    Option (Option ℚ) :=
  match ti.priceData with
  | none => none
  | some pd =>
    some <| pd.current.map (fun currentPrice =>
      let deviation := currentPrice * entryDeviationOf (normalizeProfile profileName)
      let entryPrice :=
        if orderType = "BUY" then currentPrice - deviation else currentPrice + deviation
      jsRound2 entryPrice)

/-- `getMinimumRiskRewardRatio(profileName)` from styles.css lines 1073-1094
(shortened Lean name, see `calculateRiskReward`). -/
def getMinimumRiskReward (profileName : String) : ℚ :=
  let profile := normalizeProfile profileName
  if profile = "falcodelloscalping" then 1.2
  else if profile = "serpentedelloswingtrading" ∨ profile = "serpenteoftheswingtrading" ∨
      profile = "swing" then 1.5
  else if profile = "orsodellpositiontrading" ∨ profile = "orsodelpositiontrading" ∨
      profile = "position" then 2.0
  else if profile = "tartarugadell\x27investimento" ∨ profile = "tartarugadellinvestimento" ∨
      profile = "longterm" then 2.5
  else 1.5

/-- `generateMT4Order(analysisData, recommendation, accountInfo)` from
styles.css lines 886-982, with the `userSettings` module state explicit and
`rt252` standing for `Math.sqrt(252)`.  The overall `none` marks the two JS
crash points: `riskRewardRatio.toFixed(2)` on `null`, and
`technicalIndicators.volatility.value` on a missing `volatility`.  The source
passes `moneySettings.riskPerTrade` — a field the settings object does not
have (it is named `maxRiskPerTrade`), hence `undefined`, which takes the same
default branch of `calculatePositionSize` as `0`; an absent `accountInfo.balance`
likewise behaves as `0` there. -/
def generateMT4Order (rt252 : ℚ) (st : UserSettings) (analysisData : AnalysisData)
    (recommendation : String) (accountInfo : AccountInfo) : Option OrderResult :=
  let ti := analysisData.technicalIndicators
  match determineOrderType recommendation with
  | none => some (.invalid .noDirection)
  | some orderType =>
    match calculateEntryPrice ti orderType analysisData.tradingProfile.name with
    | none => none
    | some entryOpt =>
      let direction := if orderType = "BUY" then "long" else "short"
      let stopOpt := calculateOptimalStopLoss rt252 ti direction analysisData.tradingProfile.name
      let targetOpt := calculateOptimalTargetPrice ti direction analysisData.tradingProfile.name
      if ¬ jsTruthy entryOpt ∨ ¬ jsTruthy stopOpt ∨ ¬ jsTruthy targetOpt then
        some (.invalid .invalidLevels)
      else
        let entryPrice := entryOpt.getD 0
        let stopLoss := stopOpt.getD 0
        let targetPrice := targetOpt.getD 0
        let rr := calculateRiskReward entryPrice targetPrice stopLoss
        let minimumRR := getMinimumRiskReward analysisData.tradingProfile.name
        if rr.getD 0 < minimumRR then
          match rr with
          | some q => some (.invalid (.lowRiskReward q minimumRR))
          | none => none
        else
          match ti.volatility with
          | none => none
          | some vol =>
            let risk := |entryPrice - stopLoss| / entryPrice
            let moneySettings :=
              getMoneyManagementSettings st (some accountInfo) analysisData.tradingProfile.name
            let positionSize :=
              calculatePositionSize (accountInfo.balance.getD 0) risk 0 vol.value
            let _ := moneySettings
            some (.valid
              { symbol := analysisData.symbol
                orderType := orderType
                entryPrice := entryPrice
                stopLoss := stopLoss
                targetPrice := targetPrice
                positionSize := positionSize
                riskReward := rr })

/-! ## Auxiliary definitions used by the statements below -/

/-- Position of a recommendation label in the ordering
StrongSell < Sell < Hold < Buy < StrongBuy. -/
def recRank (s : String) : ℕ :=
  if s = "Vendi Forte" then 0
  else if s = "Vendi" then 1
  else if s = "Mantieni" then 2
  else if s = "Compra" then 3
  else if s = "Compra Forte" then 4
  else 0

/-- A confidence tier. -/
inductive Tier where
  | alta | media | bassa
deriving DecidableEq, Repr

/-- Tier of `|normalizedScore|`: high above 5, medium above 2, else low. -/
def scoreTierSpec (score : ℚ) : Tier :=
  if |score| > 5 then .alta else if |score| > 2 then .media else .bassa

/-- Tier of `signalToNoise = |mean| / (stdDev = 0 ? 1 : stdDev)` against the
thresholds 1.5 and 0.8, expressed over ℚ by comparing squares when
`variance ≠ 0`. -/
def coherenceTierSpec (mean variance : ℚ) : Tier :=
  if variance = 0 then
    if |mean| > 1.5 then .alta else if |mean| > 0.8 then .media else .bassa
  else
    if mean ^ 2 > 1.5 ^ 2 * variance then .alta
    else if mean ^ 2 > 0.8 ^ 2 * variance then .media
    else .bassa

/-- High only if both tiers are high; Low if either tier is low; else Medium. -/
def combineTiersSpec : Tier → Tier → String
  | .alta, .alta => "Alta"
  | .bassa, _ => "Bassa"
  | _, .bassa => "Bassa"
  | _, _ => "Media"

/-- Modelled from the amended specification of the confidence computation:
mean and population variance of the available signals; coherence from
`|mean| / (stdDev = 0 ? 1 : stdDev)` (the divisor is the standard deviation
itself whenever it is nonzero); strength from `|score|`; combined
high/low/medium as in `combineTiersSpec`; fewer than two available signals
force Low. -/
def determineConfidenceSpecFixed (score : ℚ) (signals : SignalSet) : String :=
  let validSignals := (signalValuesList signals).filterMap id
  if validSignals.length < 2 then "Bassa"
  else
    let n : ℚ := validSignals.length
    let mean := validSignals.foldl (· + ·) 0 / n
    let variance := ((validSignals.map (fun v => (v - mean) ^ 2)).foldl (· + ·) 0) / n
    combineTiersSpec (scoreTierSpec score) (coherenceTierSpec mean variance)

/-- Signal set with exactly two available signals, of mean 0.6 and population
standard deviation 0.3. -/
def sigC2 : SignalSet where
  rsi := some 0.3
  macd := some 0.9
  ema := none
  adx := none
  bollinger := none
  volume := none
  pattern := none

/-- A snapshot on which a valid BUY order is generated whose stop loss lies
above the entry price: current price 10.008, one support at 9.9905, zero
volatility, no moving averages. -/
def tiC1 : TechnicalIndicators where
  priceData := some { current := some (1251/125), change := none }
  movingAverages := none
  momentum := none
  volatility := some { value := some 0, bollingerUpper := none, bollingerMiddle := none
                       bollingerLower := none }
  trend := none
  levels := some { pivotPoint := none, supports := [19981/2000], resistances := [] }
  volume := none

/-- Analysis input for the scalping profile over `tiC1`. -/
def adC1 : AnalysisData where
  symbol := "ACME"
  technicalIndicators := tiC1
  tradingProfile := { name := "Falco dello Scalping" }

/-- The valid order produced by `generateMT4Order` on the C1 scalping input. -/
def orderC1 : MT4Order where
  symbol := "ACME"
  orderType := "BUY"
  entryPrice := 999/100
  stopLoss := 19981/2000
  targetPrice := 2003763/200000
  positionSize := 3/5
  riskReward := some (5763/100)

/-- Tests whether an order result is a valid order whose stop loss lies on the
profit side of its entry price. -/
def stopOnProfitSide : Option OrderResult → Bool
  | some (.valid o) =>
    (o.orderType == "BUY" && decide (o.entryPrice < o.stopLoss)) ||
    (o.orderType == "SELL" && decide (o.stopLoss < o.entryPrice))
  | _ => false

/-- A snapshot on which the long-term profile computes risk/reward 21/19,
below its minimum 2.5: current price 100, one support at 80, zero
volatility. -/
def tiC7 : TechnicalIndicators where
  priceData := some { current := some 100, change := none }
  movingAverages := none
  momentum := none
  volatility := some { value := some 0, bollingerUpper := none, bollingerMiddle := none
                       bollingerLower := none }
  trend := none
  levels := some { pivotPoint := none, supports := [80], resistances := [] }
  volume := none

/-- Analysis input for the long-term profile over `tiC7`. -/
def adC7 : AnalysisData where
  symbol := "TEST"
  technicalIndicators := tiC7
  tradingProfile := { name := "longterm" }

/-- A snapshot whose only available signal input is an RSI of 20. -/
def tiRSI20 : TechnicalIndicators where
  priceData := none
  movingAverages := none
  momentum := some { rsi := some 20, macd := none, macdSignal := none, macdHistogram := none }
  volatility := none
  trend := none
  levels := none
  volume := none

/-! ## General lemmas -/

theorem qabs_eq_ite (a : ℚ) : |a| = if a < 0 then -a else a := by
  split_ifs with h
  · exact abs_of_neg h
  · exact abs_of_nonneg (not_lt.1 h)

theorem changesOf_length : ∀ p : List ℚ, (changesOf p).length = p.length - 1
  | [] => by simp [changesOf]
  | [_] => by simp [changesOf]
  | a :: b :: t => by
    rw [changesOf]
    simp only [List.length_cons]
    rw [changesOf_length (b :: t)]
    simp

/-! ## C3 -/

/-- C3 (amended): `calculateSMA` always returns an array of the input length,
and any insufficient-history call of `calculateRSI` returns a full-length
array of unavailable markers; but with sufficient history (`n > period`)
`calculateRSI` returns an array of length `n - 1`, one short of its input. -/
theorem claimC3 :
    (∀ (data : List ℚ) (period : ℕ), (calculateSMA data period).length = data.length) ∧
    (∀ (prices : List ℚ) (period : ℕ), prices.length ≤ period →
      calculateRSI prices period = List.replicate prices.length none) ∧
    (∀ (prices : List ℚ) (period : ℕ),
      (calculateRSI prices period).length =
        if prices.length ≤ period then prices.length else prices.length - 1) := by
  refine ⟨fun data period => by simp [calculateSMA],
    fun prices period h => by simp [calculateRSI, h],
    fun prices period => ?_⟩
  by_cases h : prices.length ≤ period
  · simp [calculateRSI, h]
  · simp only [calculateRSI, if_neg h]
    simp [changesOf_length]
    omega

/-- C3 counterexample: on the three-point series `[1, 2, 3]` with period 1,
`calculateRSI` returns an array of length 2, not 3. -/
theorem claimC3_counterexample :
    (calculateRSI [(1 : ℚ), 2, 3] 1).length ≠ [(1 : ℚ), 2, 3].length := by decide

/-- Witness for C3 at a concrete insufficient-history input. -/
theorem claimC3_witness :
    [(1 : ℚ), 2].length ≤ 3 ∧ calculateRSI [(1 : ℚ), 2] 3 = List.replicate 2 none :=
  ⟨by decide, claimC3.2.1 [(1 : ℚ), 2] 3 (by decide)⟩

/-! ## C2 -/

/-- C2 (amended): the confidence is computed from the available signals by the
claimed tiers, except that the divisor of `signalToNoise` is the standard
deviation itself whenever it is nonzero (only `stdDev = 0` falls back to 1),
and fewer than two available signals force Low. -/
theorem claimC2 (score : ℚ) (signals : SignalSet) :
    determineConfidence score signals = determineConfidenceSpecFixed score signals := by
  unfold determineConfidence determineConfidenceSpecFixed
  by_cases hlen : ((signalValuesList signals).filterMap id).length < 2
  · simp only [if_pos hlen]
  · simp only [if_neg hlen]
    generalize ((signalValuesList signals).filterMap id).foldl (· + ·) 0 /
      (((signalValuesList signals).filterMap id).length : ℚ) = m
    generalize (((signalValuesList signals).filterMap id).map (fun v => (v - m) ^ 2)).foldl
      (· + ·) 0 / (((signalValuesList signals).filterMap id).length : ℚ) = var
    unfold scoreTierSpec coherenceTierSpec
    split_ifs <;> simp_all [combineTiersSpec]

/-- C2 counterexample: two available signals `0.3, 0.9` (mean `0.6`, population
standard deviation `0.3`, strictly between 0 and 1) with score 6: the code
divides by the standard deviation (signal-to-noise 2, confidence Alta) whereas
the claimed `max(stdDev, 1)` divisor yields signal-to-noise 0.6 and Bassa. -/
theorem claimC2_counterexample :
    determineConfidence 6 sigC2 = "Alta" ∧ determineConfidenceClaimed 6 sigC2 = "Bassa" := by
  constructor <;>
    · simp only [determineConfidence, determineConfidenceClaimed, sigC2, signalValuesList,
        List.filterMap]
      norm_num [qabs_eq_ite]
      try simp

/-! ## C6 -/

theorem positionSizeNaive_le_240 (r : ℚ) (v : Option ℚ) :
    positionSizeNaive 10000 r 0.02 v ≤ 240 := by
  unfold positionSizeNaive
  norm_num
  set e := min (if r ≤ 0 then (1 : ℚ) / 100 else r) (1 / 50) with he
  have he2 : e ≤ 1 / 50 := min_le_right _ _
  have he0 : (0 : ℚ) ≤ e := by
    refine le_min ?_ (by norm_num)
    split_ifs with hr
    · norm_num
    · linarith [not_le.1 hr]
  split_ifs <;> nlinarith [he2, he0]

/-- C6 counterexample (negation of the claim's existential): with account
balance 10000 and `maxRiskPerTrade = 0.02` there is no risk percent and
volatility for which the naive size exceeds the 5%-of-balance ceiling — the
naive size is at most 240 while the ceiling is 500. -/
theorem claimC6_counterexample :
    ¬ ∃ (riskPercent : ℚ) (volatility : Option ℚ),
        positionSizeCeiling 10000 < positionSizeNaive 10000 riskPercent 0.02 volatility := by
  rintro ⟨r, v, h⟩
  have hc : positionSizeCeiling 10000 = 500 := by norm_num [positionSizeCeiling]
  have hn := positionSizeNaive_le_240 r v
  rw [hc] at h
  linarith

/-- C6 (amended): with balance 10000 and `maxRiskPerTrade = 0.02`, the naive
size never exceeds the ceiling (it is at most 240, the ceiling is 500), so the
returned position size always equals the rounded naive size and the clamp
never binds. -/
theorem claimC6 (riskPercent : ℚ) (volatility : Option ℚ) :
    positionSizeNaive 10000 riskPercent 0.02 volatility ≤ 240 ∧
    positionSizeCeiling 10000 = 500 ∧
    calculatePositionSize 10000 riskPercent 0.02 volatility =
      jsRound2 (positionSizeNaive 10000 riskPercent 0.02 volatility) := by
  have hn := positionSizeNaive_le_240 riskPercent volatility
  have hceil : positionSizeCeiling 10000 = 500 := by norm_num [positionSizeCeiling]
  refine ⟨hn, hceil, ?_⟩
  have hfl : jsRound2 (positionSizeNaive 10000 riskPercent 0.02 volatility) ≤
      positionSizeNaive 10000 riskPercent 0.02 volatility + 1 / 200 := by
    unfold jsRound2 jsRound
    have := Int.floor_le (positionSizeNaive 10000 riskPercent 0.02 volatility * 100 + 1 / 2)
    rw [div_le_iff₀ (by norm_num : (0 : ℚ) < 100)]
    linarith
  unfold calculatePositionSize
  rw [hceil]
  exact min_eq_left (by linarith)

/-! ## C8 -/

/-- C8: the recommendation label follows the stated thresholds and its rank in
the ordering StrongSell < Sell < Hold < Buy < StrongBuy is monotone in the
normalized score. -/
theorem claimC8 :
    (∀ s : ℚ,
      (7 < s → determineRecommendation s = "Compra Forte") ∧
      (3 < s ∧ s ≤ 7 → determineRecommendation s = "Compra") ∧
      (-3 < s ∧ s ≤ 3 → determineRecommendation s = "Mantieni") ∧
      (-7 < s ∧ s ≤ -3 → determineRecommendation s = "Vendi") ∧
      (s ≤ -7 → determineRecommendation s = "Vendi Forte")) ∧
    (∀ s1 s2 : ℚ, s1 ≤ s2 →
      recRank (determineRecommendation s1) ≤ recRank (determineRecommendation s2)) := by
  constructor
  · intro s
    refine ⟨fun h => ?_, fun h => ?_, fun h => ?_, fun h => ?_, fun h => ?_⟩ <;>
      · unfold determineRecommendation
        split_ifs <;> first | rfl | (exfalso; first | linarith | linarith [h.1, h.2])
  · intro s1 s2 h
    unfold determineRecommendation
    split_ifs <;> simp [recRank] <;> linarith

/-- Witness for C8 at score 8 (StrongBuy band). -/
theorem claimC8_witness :
    (7 : ℚ) < 8 ∧ determineRecommendation 8 = "Compra Forte" :=
  ⟨by norm_num, (claimC8.1 8).1 (by norm_num)⟩

/-! ## C10 -/

theorem positionSizeNaive_pos_eq (b riskPercent maxRisk : ℚ) (v : Option ℚ) (hb : 0 < b) :
    positionSizeNaive b riskPercent maxRisk v =
      positionSizeNaive 10000 riskPercent maxRisk v := by
  unfold positionSizeNaive
  rw [if_neg (not_le.2 hb)]
  norm_num
  rw [mul_div_mul_left _ _ (ne_of_gt hb)]
  split_ifs <;> ring

theorem positionSizeCeiling_eq (b : ℚ) : positionSizeCeiling b = 500 := by
  unfold positionSizeCeiling
  split_ifs with h
  · norm_num
  · push_neg at h
    rw [mul_div_mul_left _ _ (ne_of_gt h)]
    norm_num

/-- C10: the position size is independent of any positive account balance, and
never exceeds 500 for any input. -/
theorem claimC10 :
    (∀ (b1 b2 riskPercent maxRisk : ℚ) (v : Option ℚ), 0 < b1 → 0 < b2 →
      calculatePositionSize b1 riskPercent maxRisk v =
        calculatePositionSize b2 riskPercent maxRisk v) ∧
    (∀ (b riskPercent maxRisk : ℚ) (v : Option ℚ),
      calculatePositionSize b riskPercent maxRisk v ≤ 500) := by
  constructor
  · intro b1 b2 riskPercent maxRisk v hb1 hb2
    unfold calculatePositionSize
    rw [positionSizeNaive_pos_eq _ _ _ _ hb1, positionSizeNaive_pos_eq _ _ _ _ hb2,
      positionSizeCeiling_eq, positionSizeCeiling_eq]
  · intro b riskPercent maxRisk v
    unfold calculatePositionSize
    rw [positionSizeCeiling_eq]
    exact min_le_right _ _

/-- Witness for C10 at two concrete positive balances. -/
theorem claimC10_witness :
    (0 : ℚ) < 5 ∧ (0 : ℚ) < 7 ∧
    calculatePositionSize 5 0.01 0.02 (some 15) = calculatePositionSize 7 0.01 0.02 (some 15) :=
  ⟨by norm_num, by norm_num, claimC10.1 5 7 0.01 0.02 (some 15) (by norm_num) (by norm_num)⟩

/-! ## C4 -/

theorem UserSettings.get_set_ne (st : UserSettings) (k k' : ProfKey) (s : MMSettings)
    (h : k' ≠ k) : (st.set k s).get k' = st.get k' := by
  cases k <;> cases k' <;> simp_all [UserSettings.get, UserSettings.set]

/-- C4 (amended): `getMoneyManagementSettings` reads the shared mutable
`userSettings` state, so its output is a function of that state and its
arguments, not of its arguments alone; two calls with equal arguments agree
whenever no intervening `updateMoneyManagementSettings` call targeted the
profile key the name resolves to — an update to any other key leaves the
result unchanged. -/
theorem claimC4 (st : UserSettings) (acct : Option AccountInfo)
    (profileName profileType : String) (patch : MMPatch) (k : ProfKey)
    (hk : keyOfString profileType = some k)
    (hne : mmProfileKeyOf profileName ≠ k) :
    getMoneyManagementSettings
      (updateMoneyManagementSettings st profileType patch).1 acct profileName =
    getMoneyManagementSettings st acct profileName := by
  unfold updateMoneyManagementSettings
  rw [hk]
  unfold getMoneyManagementSettings
  rw [UserSettings.get_set_ne _ _ _ _ hne]

/-- C4 counterexample: an `updateMoneyManagementSettings` call between two
equal-argument `getMoneyManagementSettings` calls changes the result. -/
theorem claimC4_counterexample :
    getMoneyManagementSettings
      (updateMoneyManagementSettings moneyManagementDefaults "swing"
        { maxRiskPerTrade := some 0.5 }).1 none "swing" ≠
    getMoneyManagementSettings moneyManagementDefaults none "swing" := by
  simp [getMoneyManagementSettings, updateMoneyManagementSettings, keyOfString,
    moneyManagementDefaults, applyPatch, UserSettings.get, UserSettings.set,
    show mmProfileKeyOf "swing" = .swing from rfl]
  norm_num [MMSettings.mk.injEq]

/-- Witness for C4: an update to the scalping key leaves the swing-profile
result unchanged. -/
theorem claimC4_witness :
    keyOfString "scalping" = some ProfKey.scalping ∧
    mmProfileKeyOf "swing" ≠ ProfKey.scalping ∧
    getMoneyManagementSettings
      (updateMoneyManagementSettings moneyManagementDefaults "scalping"
        { maxRiskPerTrade := some 0.5 }).1 none "swing" =
    getMoneyManagementSettings moneyManagementDefaults none "swing" :=
  ⟨rfl, by decide, claimC4 moneyManagementDefaults none "swing" "scalping" _ _ rfl (by decide)⟩

/-! ## C9 -/

theorem changesOf_pos : ∀ (p : List ℚ), List.Chain' (· < ·) p → ∀ c ∈ changesOf p, 0 < c
  | [], _, c, hc => by simp [changesOf] at hc
  | [a], _, c, hc => by simp [changesOf] at hc
  | a :: b :: t, h, c, hc => by
    rw [changesOf] at hc
    rcases List.mem_cons.1 hc with rfl | hc'
    · have hab := (List.chain'_cons.1 h).1
      linarith
    · exact changesOf_pos (b :: t) (List.chain'_cons.1 h).2 c hc'

theorem foldl_losses_of_pos :
    ∀ (w : List ℚ) (acc : ℚ), (∀ c ∈ w, 0 < c) →
      w.foldl (fun a c => if c > 0 then a else a - c) acc = acc
  | [], acc, _ => rfl
  | hd :: tl, acc, h => by
    simp only [List.foldl_cons, if_pos (h hd (List.mem_cons_self hd tl))]
    exact foldl_losses_of_pos tl acc fun c hc => h c (List.mem_cons_of_mem hd hc)

theorem rsiLosses_eq_zero (w : List ℚ) (h : ∀ c ∈ w, 0 < c) : rsiLosses w = 0 :=
  foldl_losses_of_pos w 0 h

/-- C9: on a strictly increasing series with more than `period` points every
defined RSI entry is exactly 100 (the average loss over each backward window
is zero), and a series with fewer than `period + 1` points yields only
unavailable markers.  The positivity hypothesis on `period` excludes the
degenerate zero-length window, which the JS `0/0` would turn into `NaN`. -/
theorem claimC9 (prices : List ℚ) (period : ℕ) (_hper : 0 < period) :
    (List.Chain' (· < ·) prices → period < prices.length →
      ∀ x ∈ calculateRSI prices period, x = none ∨ x = some 100) ∧
    (prices.length < period + 1 →
      calculateRSI prices period = List.replicate prices.length none) := by
  constructor
  · intro hmono hlen x hx
    unfold calculateRSI at hx
    rw [if_neg (by omega)] at hx
    rcases List.mem_append.1 hx with h | h
    · exact Or.inl (List.eq_of_mem_replicate h)
    · right
      obtain ⟨k, _, rfl⟩ := List.mem_map.1 h
      have hwin : ∀ c ∈ ((changesOf prices).drop k).take period, 0 < c := fun c hc =>
        changesOf_pos prices hmono c (List.mem_of_mem_drop (List.mem_of_mem_take hc))
      simp only [rsiLosses_eq_zero _ hwin, zero_div, if_pos]
  · intro h
    unfold calculateRSI
    rw [if_pos (by omega)]

/-- Witness for C9 over the strictly increasing series `[1, 2, 3, 4]` with
period 2, whose defined RSI entry is 100. -/
theorem claimC9_witness :
    (0 < 2) ∧ (some (100 : ℚ) = none ∨ some (100 : ℚ) = some 100) :=
  ⟨by decide, (claimC9 [1, 2, 3, 4] 2 (by decide)).1 (by norm_num [List.chain'_cons])
    (by decide) (some 100) (by norm_num [calculateRSI, changesOf, rsiGains, rsiLosses])⟩


/-! ## C5 -/

theorem rsiSignal_range (ti : TechnicalIndicators) (q : ℚ)
    (h : calculateRSISignal ti = some q) : |q| ≤ 2 := by
  simp only [calculateRSISignal] at h
  split at h
  · simp at h
  · split at h
    · simp at h
    · split_ifs at h <;> (injection h with h; rw [← h]; norm_num [qabs_eq_ite])

theorem macdSignal_range (ti : TechnicalIndicators) (q : ℚ)
    (h : calculateMACDSignal ti = some q) : |q| ≤ 2 := by
  simp only [calculateMACDSignal] at h
  split at h
  · simp at h
  · split at h
    · split_ifs at h <;> (injection h with h; rw [← h]; norm_num [qabs_eq_ite])
    · simp at h

theorem adxSignal_range (ti : TechnicalIndicators) (q : ℚ)
    (h : calculateADXSignal ti = some q) : |q| ≤ 2 := by
  simp only [calculateADXSignal] at h
  split at h
  · simp at h
  · split at h
    · split_ifs at h <;> (injection h with h; rw [← h]; norm_num [qabs_eq_ite])
    · simp at h

theorem bollingerSignal_range (ti : TechnicalIndicators) (q : ℚ)
    (h : calculateBollingerSignal ti = some q) : |q| ≤ 2 := by
  simp only [calculateBollingerSignal] at h
  split at h
  · split at h
    · split_ifs at h <;> (injection h with h; rw [← h]; norm_num [qabs_eq_ite])
    · simp at h
  · simp at h

theorem volumeSignal_range (ti : TechnicalIndicators) (q : ℚ)
    (h : calculateVolumeSignal ti = some q) : |q| ≤ 2 := by
  simp only [calculateVolumeSignal] at h
  split at h
  · split at h
    · split_ifs at h <;> (injection h with h; rw [← h]; norm_num [qabs_eq_ite])
    · simp at h
  · simp at h
theorem emaSignal_range (ti : TechnicalIndicators) (q : ℚ)
    (h : calculateEMASignal ti = some q) : |q| ≤ 2 := by
  simp only [calculateEMASignal] at h
  split at h
  · simp at h
  rename_i mas hmaseq
  split at h
  · simp at h
  rename_i pd hpdeq
  split at h
  · simp at h
  rename_i price hpriceeq
  split at h
  · simp at h
  rcases hema : mas.ema20 with _ | e <;> rcases hmed : mas.smaMedium with _ | m <;>
    rcases hlong : mas.smaLong with _ | l <;> simp only [hema, hmed, hlong] at h <;>
    split at h <;>
    first
      | (injection h with h; rw [← h];
         first
           | (split_ifs <;> norm_num [qabs_eq_ite])
           | norm_num [qabs_eq_ite])
      | simp at h

theorem patternContribution_bound (p : PatternRec) :
    |(patternContribution p).1| ≤ 3/2 ∧ (1/2 : ℚ) ≤ (patternContribution p).2 := by
  unfold patternContribution
  cases hip : p.implication <;> simp only [hip] <;> split_ifs <;>
    constructor <;> norm_num [qabs_eq_ite]

theorem patternFold_bound :
    ∀ (ps : List PatternRec) (a : ℚ × ℚ), |a.1| ≤ 3/2 * a.2 →
      |(ps.foldl (fun acc p =>
          (acc.1 + (patternContribution p).1 * (patternContribution p).2,
           acc.2 + (patternContribution p).2)) a).1| ≤
        3/2 * (ps.foldl (fun acc p =>
          (acc.1 + (patternContribution p).1 * (patternContribution p).2,
           acc.2 + (patternContribution p).2)) a).2
  | [], _, ha => ha
  | p :: ps, a, ha => by
    simp only [List.foldl_cons]
    refine patternFold_bound ps _ ?_
    obtain ⟨h1, h2⟩ := patternContribution_bound p
    have habs : |a.1 + (patternContribution p).1 * (patternContribution p).2| ≤
        |a.1| + |(patternContribution p).1| * (patternContribution p).2 := by
      calc |a.1 + (patternContribution p).1 * (patternContribution p).2| ≤
          |a.1| + |(patternContribution p).1 * (patternContribution p).2| := abs_add _ _
        _ = |a.1| + |(patternContribution p).1| * |(patternContribution p).2| := by
            rw [abs_mul]
        _ = |a.1| + |(patternContribution p).1| * (patternContribution p).2 := by
            rw [abs_of_pos (by linarith : (0:ℚ) < (patternContribution p).2)]
    have hm : |(patternContribution p).1| * (patternContribution p).2 ≤
        3/2 * (patternContribution p).2 :=
      mul_le_mul_of_nonneg_right h1 (by linarith)
    simp only []
    nlinarith [ha]

theorem patternSignal_range (ti : TechnicalIndicators) (q : ℚ)
    (h : calculatePatternSignal ti = some q) : |q| ≤ 2 := by
  simp only [calculatePatternSignal] at h
  split at h
  · simp at h
  rename_i t hteq
  split_ifs at h with hemp hpos
  injection h with h
  have hfold := patternFold_bound t.patterns (0, 0) (by norm_num)
  simp only [show ((0, 0) : ℚ × ℚ) = 0 from rfl] at h hfold hpos
  rw [← h, abs_div, abs_of_pos hpos, div_le_iff₀ hpos]
  nlinarith [hfold]
theorem weightFold_bound :
    ∀ (ps : List (Option ℚ × ℚ)) (t m : ℚ),
      |t| ≤ m → (∀ pr ∈ ps, ∀ s : ℚ, pr.1 = some s → |s| ≤ 2) →
      |ps.foldl (fun acc p => match p.1 with | some s => acc + s * p.2 | none => acc) t| ≤
        ps.foldl (fun acc p => match p.1 with | some _ => acc + |p.2 * 2| | none => acc) m
  | [], _, _, ht, _ => ht
  | pr :: ps, t, m, ht, h => by
    simp only [List.foldl_cons]
    cases hpr : pr.1 with
    | none =>
      simp only [hpr]
      exact weightFold_bound ps t m ht fun x hx => h x (List.mem_cons_of_mem _ hx)
    | some s =>
      simp only [hpr]
      have hs : |s| ≤ 2 := h pr (List.mem_cons_self _ _) s hpr
      refine weightFold_bound ps _ _ ?_ fun x hx => h x (List.mem_cons_of_mem _ hx)
      calc |t + s * pr.2| ≤ |t| + |s * pr.2| := abs_add _ _
        _ ≤ m + |pr.2 * 2| := by
            rw [abs_mul, abs_mul, show |(2 : ℚ)| = 2 from by norm_num]
            nlinarith [mul_le_mul_of_nonneg_right hs (abs_nonneg pr.2), ht]

theorem totalScore_abs_le (ps : List (Option ℚ × ℚ))
    (h : ∀ pr ∈ ps, ∀ s : ℚ, pr.1 = some s → |s| ≤ 2) :
    |totalScoreOf ps| ≤ maxPossibleScoreOf ps :=
  weightFold_bound ps 0 0 (by norm_num) h

/-- C5: every available signal lies in [-2, +2], and the normalized composite
score lies in [-10, +10] for every snapshot and profile type. -/
theorem claimC5 :
    (∀ (ti : TechnicalIndicators) (q : ℚ), calculateRSISignal ti = some q → -2 ≤ q ∧ q ≤ 2) ∧
    (∀ (ti : TechnicalIndicators) (q : ℚ), calculateMACDSignal ti = some q → -2 ≤ q ∧ q ≤ 2) ∧
    (∀ (ti : TechnicalIndicators) (q : ℚ), calculateEMASignal ti = some q → -2 ≤ q ∧ q ≤ 2) ∧
    (∀ (ti : TechnicalIndicators) (q : ℚ), calculateADXSignal ti = some q → -2 ≤ q ∧ q ≤ 2) ∧
    (∀ (ti : TechnicalIndicators) (q : ℚ),
      calculateBollingerSignal ti = some q → -2 ≤ q ∧ q ≤ 2) ∧
    (∀ (ti : TechnicalIndicators) (q : ℚ), calculateVolumeSignal ti = some q → -2 ≤ q ∧ q ≤ 2) ∧
    (∀ (ti : TechnicalIndicators) (q : ℚ),
      calculatePatternSignal ti = some q → -2 ≤ q ∧ q ≤ 2) ∧
    (∀ (ti : TechnicalIndicators) (profileType : String),
      -10 ≤ normalizedScoreOf ti profileType ∧ normalizedScoreOf ti profileType ≤ 10) := by
  refine ⟨fun ti q h => abs_le.1 (rsiSignal_range ti q h),
    fun ti q h => abs_le.1 (macdSignal_range ti q h),
    fun ti q h => abs_le.1 (emaSignal_range ti q h),
    fun ti q h => abs_le.1 (adxSignal_range ti q h),
    fun ti q h => abs_le.1 (bollingerSignal_range ti q h),
    fun ti q h => abs_le.1 (volumeSignal_range ti q h),
    fun ti q h => abs_le.1 (patternSignal_range ti q h),
    fun ti profileType => ?_⟩
  have hs : ∀ pr ∈ weightPairs (signalsOf ti) (getWeightsForProfile profileType),
      ∀ s : ℚ, pr.1 = some s → |s| ≤ 2 := by
    intro pr hpr s hs1
    simp only [weightPairs, List.mem_cons, List.mem_singleton] at hpr
    rcases hpr with rfl | rfl | rfl | rfl | rfl | rfl | rfl | h'
    · exact rsiSignal_range ti s hs1
    · exact macdSignal_range ti s hs1
    · exact emaSignal_range ti s hs1
    · exact adxSignal_range ti s hs1
    · exact bollingerSignal_range ti s hs1
    · exact volumeSignal_range ti s hs1
    · exact patternSignal_range ti s hs1
    · simp at h'
  have h1 := totalScore_abs_le _ hs
  rw [← abs_le]
  simp only [normalizedScoreOf]
  split_ifs with hmp
  · rw [abs_mul, abs_div, abs_of_pos hmp]
    have : |totalScoreOf (weightPairs (signalsOf ti) (getWeightsForProfile profileType))| /
        maxPossibleScoreOf (weightPairs (signalsOf ti) (getWeightsForProfile profileType)) ≤ 1 :=
      (div_le_one hmp).2 h1
    have h10 : |(10 : ℚ)| = 10 := by norm_num
    nlinarith [this]
  · norm_num

/-- Witness for C5 at a snapshot whose RSI is 20 (signal +2). -/
theorem claimC5_witness :
    calculateRSISignal tiRSI20 = some 2 ∧ (-2 ≤ (2 : ℚ) ∧ (2 : ℚ) ≤ 2) :=
  ⟨by norm_num [calculateRSISignal, tiRSI20],
   claimC5.1 tiRSI20 2 (by norm_num [calculateRSISignal, tiRSI20])⟩

/-! ## C7 -/

theorem riskReward_formula (e t s : ℚ) (he : e ≠ 0) (ht : t ≠ 0) (hs : s ≠ 0)
    (hes : e - s ≠ 0) : calculateRiskReward e t s = some (|t - e| / |e - s|) := by
  simp only [calculateRiskReward]
  rw [if_neg (by push_neg; exact ⟨he, ht, hs⟩)]
  rw [if_neg (fun h => hes (abs_eq_zero.1 h))]

theorem riskReward_entry_eq_stop (e t : ℚ) : calculateRiskReward e t e = none := by
  simp only [calculateRiskReward]
  split_ifs with h1 h2
  · rfl
  · rfl
  · exfalso; exact h2 (by simp [sub_self])

theorem generateMT4Order_lowRR (rt252 : ℚ) (st : UserSettings) (ad : AnalysisData)
    (rec : String) (acct : AccountInfo) (ot : String) (eOpt : Option ℚ) (q : ℚ)
    (h1 : determineOrderType rec = some ot)
    (h2 : calculateEntryPrice ad.technicalIndicators ot ad.tradingProfile.name = some eOpt)
    (h3 : jsTruthy eOpt = true)
    (h4 : jsTruthy (calculateOptimalStopLoss rt252 ad.technicalIndicators
      (if ot = "BUY" then "long" else "short") ad.tradingProfile.name) = true)
    (h5 : jsTruthy (calculateOptimalTargetPrice ad.technicalIndicators
      (if ot = "BUY" then "long" else "short") ad.tradingProfile.name) = true)
    (h6 : calculateRiskReward (eOpt.getD 0)
      ((calculateOptimalTargetPrice ad.technicalIndicators
        (if ot = "BUY" then "long" else "short") ad.tradingProfile.name).getD 0)
      ((calculateOptimalStopLoss rt252 ad.technicalIndicators
        (if ot = "BUY" then "long" else "short") ad.tradingProfile.name).getD 0) = some q)
    (h7 : q < getMinimumRiskReward ad.tradingProfile.name) :
    generateMT4Order rt252 st ad rec acct =
      some (.invalid (.lowRiskReward q (getMinimumRiskReward ad.tradingProfile.name))) := by
  simp only [generateMT4Order, h1, h2, h3, h4, h5, h6, Option.getD_some]
  rw [if_neg (by simp), if_pos h7]

/-- C7 (amended): the risk/reward function returns `|target - entry| / |entry - stop|`
whenever all three arguments are nonzero (falsy arguments yield the N/A
sentinel) and the denominator is nonzero; entry 100, target 110, stop 95 give
exactly 2; entry = stop yields the N/A sentinel, never NaN or Infinity; and an
order whose computed ratio is a value below the profile minimum is rejected
with a message citing that ratio and the minimum. -/
theorem claimC7 :
    (∀ e t s : ℚ, e ≠ 0 → t ≠ 0 → s ≠ 0 → e - s ≠ 0 →
      calculateRiskReward e t s = some (|t - e| / |e - s|)) ∧
    calculateRiskReward 100 110 95 = some 2 ∧
    (∀ e t : ℚ, calculateRiskReward e t e = none) ∧
    (∀ (rt252 : ℚ) (st : UserSettings) (ad : AnalysisData) (rec : String)
        (acct : AccountInfo) (ot : String) (eOpt : Option ℚ) (q : ℚ),
      determineOrderType rec = some ot →
      calculateEntryPrice ad.technicalIndicators ot ad.tradingProfile.name = some eOpt →
      jsTruthy eOpt = true →
      jsTruthy (calculateOptimalStopLoss rt252 ad.technicalIndicators
        (if ot = "BUY" then "long" else "short") ad.tradingProfile.name) = true →
      jsTruthy (calculateOptimalTargetPrice ad.technicalIndicators
        (if ot = "BUY" then "long" else "short") ad.tradingProfile.name) = true →
      calculateRiskReward (eOpt.getD 0)
        ((calculateOptimalTargetPrice ad.technicalIndicators
          (if ot = "BUY" then "long" else "short") ad.tradingProfile.name).getD 0)
        ((calculateOptimalStopLoss rt252 ad.technicalIndicators
          (if ot = "BUY" then "long" else "short") ad.tradingProfile.name).getD 0) = some q →
      q < getMinimumRiskReward ad.tradingProfile.name →
      generateMT4Order rt252 st ad rec acct =
        some (.invalid (.lowRiskReward q (getMinimumRiskReward ad.tradingProfile.name)))) :=
  ⟨riskReward_formula,
   by norm_num [calculateRiskReward, qabs_eq_ite],
   riskReward_entry_eq_stop,
   fun rt252 st ad rec acct ot eOpt q h1 h2 h3 h4 h5 h6 h7 =>
     generateMT4Order_lowRR rt252 st ad rec acct ot eOpt q h1 h2 h3 h4 h5 h6 h7⟩

/-- C7 counterexample: at entry 0, target 1, stop 2 the denominator |0 - 2| is
nonzero, yet the function returns the N/A sentinel (the zero entry is falsy),
not the claimed quotient. -/
theorem claimC7_counterexample :
    |(0 : ℚ) - 2| ≠ 0 ∧ calculateRiskReward 0 1 2 = none ∧
    calculateRiskReward 0 1 2 ≠ some (|(1 : ℚ) - 0| / |(0 : ℚ) - 2|) := by
  norm_num [calculateRiskReward, qabs_eq_ite]
  simp

theorem evalEntryC7 : calculateEntryPrice tiC7 "BUY" "longterm" = some (some 99) := by
  simp only [calculateEntryPrice, tiC7,
    show normalizeProfile "longterm" = "longterm" from rfl,
    show entryDeviationOf "longterm" = 0.01 from by simp [entryDeviationOf],
    jsRound2, jsRound]
  norm_num

theorem evalStopC7 : calculateOptimalStopLoss 4 tiC7 "long" "longterm" = some 80 := by
  simp only [calculateOptimalStopLoss, possibleStopsOf, tiC7,
    show normalizeProfile "longterm" = "longterm" from rfl,
    show stopAtrMultiplier "longterm" = 3 from by simp [stopAtrMultiplier],
    show stopPercentageOf "longterm" = 0.1 from by simp [stopPercentageOf],
    findNearestSupportBelow, findNearestResistanceAbove, calculateATRStopLoss,
    findMABasedStopLoss, jsMaxList, jsMinList, Option.bind]
  norm_num [qabs_eq_ite]
  all_goals simp

theorem evalTargetC7 : calculateOptimalTargetPrice tiC7 "long" "longterm" = some 120 := by
  simp only [calculateOptimalTargetPrice, potentialTargetsOf, tiC7,
    show normalizeProfile "longterm" = "longterm" from rfl,
    show targetPercentageOf "longterm" = 0.15 from by simp [targetPercentageOf],
    findNearestSupportBelow, findNearestResistanceAbove, calculateFibonacciTargetsLong,
    calculateFibonacciTargetsShort, jsMaxList, jsMinList, Option.bind, String.reduceEq]
  norm_num [qabs_eq_ite]
  all_goals simp

/-- Witness for C7: the formula at (2, 3, 1), and a concrete long-term-profile
order rejected for ratio 21/19 below minimum 2.5. -/
theorem claimC7_witness :
    calculateRiskReward 2 3 1 = some (|(3 : ℚ) - 2| / |(2 : ℚ) - 1|) ∧
    generateMT4Order 4 moneyManagementDefaults adC7 "Compra" ⟨some 1000⟩ =
      some (.invalid (.lowRiskReward (21/19)
        (getMinimumRiskReward adC7.tradingProfile.name))) :=
  ⟨claimC7.1 2 3 1 (by norm_num) (by norm_num) (by norm_num) (by norm_num),
   claimC7.2.2.2 4 moneyManagementDefaults adC7 "Compra" ⟨some 1000⟩ "BUY" (some 99) (21/19)
     (by rfl)
     (evalEntryC7)
     (by simp [jsTruthy])
     (by rw [show (if ("BUY" : String) = "BUY" then "long" else "short") = "long" from rfl,
           show calculateOptimalStopLoss 4 adC7.technicalIndicators "long"
             adC7.tradingProfile.name = some 80 from evalStopC7]
         simp [jsTruthy])
     (by rw [show (if ("BUY" : String) = "BUY" then "long" else "short") = "long" from rfl,
           show calculateOptimalTargetPrice adC7.technicalIndicators "long"
             adC7.tradingProfile.name = some 120 from evalTargetC7]
         simp [jsTruthy])
     (by rw [show (if ("BUY" : String) = "BUY" then "long" else "short") = "long" from rfl,
           show calculateOptimalTargetPrice adC7.technicalIndicators "long"
             adC7.tradingProfile.name = some 120 from evalTargetC7,
           show calculateOptimalStopLoss 4 adC7.technicalIndicators "long"
             adC7.tradingProfile.name = some 80 from evalStopC7]
         norm_num [calculateRiskReward, qabs_eq_ite])
     (by rw [show getMinimumRiskReward adC7.tradingProfile.name = 2.5 from by
           simp [getMinimumRiskReward, show adC7.tradingProfile.name = "longterm" from rfl,
             show normalizeProfile "longterm" = "longterm" from rfl]]
         norm_num)⟩

theorem foldl_max_lt {c : ℚ} :
    ∀ (t : List ℚ) (acc : ℚ), acc < c → (∀ x ∈ t, x < c) → t.foldl max acc < c
  | [], acc, ha, _ => ha
  | x :: t, acc, ha, h => by
    simp only [List.foldl_cons]
    exact foldl_max_lt t (max acc x) (max_lt ha (h x (List.mem_cons_self _ _)))
      fun y hy => h y (List.mem_cons_of_mem _ hy)

theorem jsMaxList_lt {c : ℚ} (l : List ℚ) (hne : l ≠ []) (h : ∀ x ∈ l, x < c) :
    jsMaxList l < c := by
  cases l with
  | nil => exact absurd rfl hne
  | cons hd t =>
    exact foldl_max_lt t hd (h hd (List.mem_cons_self _ _))
      fun y hy => h y (List.mem_cons_of_mem _ hy)

theorem foldl_min_gt {c : ℚ} :
    ∀ (t : List ℚ) (acc : ℚ), c < acc → (∀ x ∈ t, c < x) → c < t.foldl min acc
  | [], acc, ha, _ => ha
  | x :: t, acc, ha, h => by
    simp only [List.foldl_cons]
    exact foldl_min_gt t (min acc x) (lt_min ha (h x (List.mem_cons_self _ _)))
      fun y hy => h y (List.mem_cons_of_mem _ hy)

theorem jsMinList_gt {c : ℚ} (l : List ℚ) (hne : l ≠ []) (h : ∀ x ∈ l, c < x) :
    c < jsMinList l := by
  cases l with
  | nil => exact absurd rfl hne
  | cons hd t =>
    exact foldl_min_gt t hd (h hd (List.mem_cons_self _ _))
      fun y hy => h y (List.mem_cons_of_mem _ hy)

theorem findNearestSupportBelow_lt (ti : TechnicalIndicators) (pd : PriceData) (c s : ℚ)
    (hpd : ti.priceData = some pd) (hc : pd.current = some c)
    (h : findNearestSupportBelow ti = some s) : s < c := by
  cases hlv : ti.levels with
  | none => simp [findNearestSupportBelow, hlv] at h
  | some lv =>
    simp only [findNearestSupportBelow, hlv, hpd, hc] at h
    split_ifs at h with hA hB
    injection h with h
    rw [← h]
    refine jsMaxList_lt _ hB fun x hx => ?_
    simpa using (List.mem_filter.1 hx).2

theorem findNearestResistanceAbove_gt (ti : TechnicalIndicators) (pd : PriceData) (c r : ℚ)
    (hpd : ti.priceData = some pd) (hc : pd.current = some c)
    (h : findNearestResistanceAbove ti = some r) : c < r := by
  cases hlv : ti.levels with
  | none => simp [findNearestResistanceAbove, hlv] at h
  | some lv =>
    simp only [findNearestResistanceAbove, hlv, hpd, hc] at h
    split_ifs at h with hA hB
    injection h with h
    rw [← h]
    refine jsMinList_gt _ hB fun x hx => ?_
    simpa using (List.mem_filter.1 hx).2
theorem stopAtrMultiplier_pos (p : String) : 0 < stopAtrMultiplier p := by
  unfold stopAtrMultiplier
  split_ifs <;> norm_num

theorem stopPercentageOf_pos (p : String) : 0 < stopPercentageOf p := by
  unfold stopPercentageOf
  split_ifs <;> norm_num

theorem getMinimumRiskReward_ge (p : String) : 6/5 ≤ getMinimumRiskReward p := by
  simp only [getMinimumRiskReward]
  split_ifs <;> norm_num

theorem calculateATRStopLoss_long_le (rt252 m : ℚ) (ti : TechnicalIndicators)
    (pd : PriceData) (c a : ℚ)
    (hrt : 0 < rt252) (hm : 0 ≤ m) (hpd : ti.priceData = some pd) (hc : pd.current = some c)
    (hcpos : 0 < c)
    (hvol : ∀ vo v, ti.volatility = some vo → vo.value = some v → 0 ≤ v)
    (h : calculateATRStopLoss rt252 ti "long" m = some a) : a ≤ c := by
  cases hv : ti.volatility with
  | none => simp [calculateATRStopLoss, hv, hpd] at h
  | some vo =>
    cases hvv : vo.value with
    | none => simp [calculateATRStopLoss, hv, hvv, hpd, hc] at h
    | some v =>
      have h0 : 0 ≤ v := hvol vo v hv hvv
      simp only [calculateATRStopLoss, hv, hvv, hpd, hc, String.reduceEq, reduceIte,
        if_true, if_false] at h
      injection h with h
      rw [← h]
      have : 0 ≤ c * (v / 100) / rt252 * m :=
        mul_nonneg (div_nonneg (mul_nonneg hcpos.le (by positivity)) hrt.le) hm
      linarith

theorem calculateATRStopLoss_short_ge (rt252 m : ℚ) (ti : TechnicalIndicators)
    (pd : PriceData) (c a : ℚ)
    (hrt : 0 < rt252) (hm : 0 ≤ m) (hpd : ti.priceData = some pd) (hc : pd.current = some c)
    (hcpos : 0 < c)
    (hvol : ∀ vo v, ti.volatility = some vo → vo.value = some v → 0 ≤ v)
    (h : calculateATRStopLoss rt252 ti "short" m = some a) : c ≤ a := by
  cases hv : ti.volatility with
  | none => simp [calculateATRStopLoss, hv, hpd] at h
  | some vo =>
    cases hvv : vo.value with
    | none => simp [calculateATRStopLoss, hv, hvv, hpd, hc] at h
    | some v =>
      have h0 : 0 ≤ v := hvol vo v hv hvv
      simp only [calculateATRStopLoss, hv, hvv, hpd, hc, String.reduceEq, reduceIte,
        if_true, if_false] at h
      injection h with h
      rw [← h]
      have : 0 ≤ c * (v / 100) / rt252 * m :=
        mul_nonneg (div_nonneg (mul_nonneg hcpos.le (by positivity)) hrt.le) hm
      linarith

theorem findMABasedStopLoss_long_lt (ti : TechnicalIndicators) (pd : PriceData) (c m : ℚ)
    (hpd : ti.priceData = some pd) (hc : pd.current = some c)
    (h : findMABasedStopLoss ti "long" = some m) : m < c := by
  cases hma : ti.movingAverages with
  | none => simp [findMABasedStopLoss, hma] at h
  | some mas =>
    simp only [findMABasedStopLoss, hma, hpd, hc, Option.bind, String.reduceEq, reduceIte,
      if_true, if_false] at h
    split_ifs at h with h1 h2
    injection h with h
    rw [← h]
    refine jsMaxList_lt _ h2 fun x hx => ?_
    simpa using (List.mem_filter.1 hx).2

theorem findMABasedStopLoss_short_gt (ti : TechnicalIndicators) (pd : PriceData) (c m : ℚ)
    (hpd : ti.priceData = some pd) (hc : pd.current = some c)
    (h : findMABasedStopLoss ti "short" = some m) : c < m := by
  cases hma : ti.movingAverages with
  | none => simp [findMABasedStopLoss, hma] at h
  | some mas =>
    simp only [findMABasedStopLoss, hma, hpd, hc, Option.bind, String.reduceEq, reduceIte,
      if_true, if_false] at h
    split_ifs at h with h1 h2
    injection h with h
    rw [← h]
    refine jsMinList_gt _ h2 fun x hx => ?_
    simpa using (List.mem_filter.1 hx).2
theorem possibleStops_long_le (rt252 : ℚ) (ti : TechnicalIndicators) (profile : String)
    (pd : PriceData) (c : ℚ)
    (hrt : 0 < rt252) (hpd : ti.priceData = some pd) (hc : pd.current = some c)
    (hcpos : 0 < c)
    (hvol : ∀ vo v, ti.volatility = some vo → vo.value = some v → 0 ≤ v) :
    ∀ vw ∈ possibleStopsOf rt252 ti "long" profile, vw.1 ≤ c := by
  intro vw hvw
  simp only [possibleStopsOf, String.reduceEq, reduceIte, if_true, if_false] at hvw
  simp only [List.mem_append] at hvw
  rcases hvw with ((h1 | h2) | h3) | h4
  · revert h1
    cases hfs : findNearestSupportBelow ti with
    | none => simp
    | some sv =>
      dsimp only
      split_ifs with hz
      · intro h1
        rcases List.mem_singleton.1 h1 with rfl
        exact (findNearestSupportBelow_lt ti pd c sv hpd hc hfs).le
      · simp
  · revert h2
    cases hatr : calculateATRStopLoss rt252 ti "long" (stopAtrMultiplier profile) with
    | none => simp
    | some a =>
      dsimp only
      split_ifs with hz
      · intro h2
        rcases List.mem_singleton.1 h2 with rfl
        exact calculateATRStopLoss_long_le rt252 _ ti pd c a hrt
          (stopAtrMultiplier_pos profile).le hpd hc hcpos hvol hatr
      · simp
  · revert h3
    cases hma : findMABasedStopLoss ti "long" with
    | none => simp
    | some m =>
      dsimp only
      split_ifs with hz
      · intro h3
        rcases List.mem_singleton.1 h3 with rfl
        exact (findMABasedStopLoss_long_lt ti pd c m hpd hc hma).le
      · simp
  · revert h4
    simp only [hpd, Option.bind, hc]
    split_ifs with hz
    · intro h4
      rcases List.mem_singleton.1 h4 with rfl
      have hp := stopPercentageOf_pos profile
      show c * (1 - stopPercentageOf profile) ≤ c
      nlinarith
    · simp
theorem possibleStops_short_ge (rt252 : ℚ) (ti : TechnicalIndicators) (profile : String)
    (pd : PriceData) (c : ℚ)
    (hrt : 0 < rt252) (hpd : ti.priceData = some pd) (hc : pd.current = some c)
    (hcpos : 0 < c)
    (hvol : ∀ vo v, ti.volatility = some vo → vo.value = some v → 0 ≤ v) :
    ∀ vw ∈ possibleStopsOf rt252 ti "short" profile, c ≤ vw.1 := by
  intro vw hvw
  simp only [possibleStopsOf, String.reduceEq, reduceIte, if_true, if_false] at hvw
  simp only [List.mem_append] at hvw
  rcases hvw with ((h1 | h2) | h3) | h4
  · revert h1
    cases hfs : findNearestResistanceAbove ti with
    | none => simp
    | some rv =>
      dsimp only
      split_ifs with hz
      · intro h1
        rcases List.mem_singleton.1 h1 with rfl
        exact (findNearestResistanceAbove_gt ti pd c rv hpd hc hfs).le
      · simp
  · revert h2
    cases hatr : calculateATRStopLoss rt252 ti "short" (stopAtrMultiplier profile) with
    | none => simp
    | some a =>
      dsimp only
      split_ifs with hz
      · intro h2
        rcases List.mem_singleton.1 h2 with rfl
        exact calculateATRStopLoss_short_ge rt252 _ ti pd c a hrt
          (stopAtrMultiplier_pos profile).le hpd hc hcpos hvol hatr
      · simp
  · revert h3
    cases hma : findMABasedStopLoss ti "short" with
    | none => simp
    | some m =>
      dsimp only
      split_ifs with hz
      · intro h3
        rcases List.mem_singleton.1 h3 with rfl
        exact (findMABasedStopLoss_short_gt ti pd c m hpd hc hma).le
      · simp
  · revert h4
    simp only [hpd, Option.bind, hc]
    split_ifs with hz
    · intro h4
      rcases List.mem_singleton.1 h4 with rfl
      have hp := stopPercentageOf_pos profile
      show c ≤ c * (1 + stopPercentageOf profile)
      nlinarith
    · simp

theorem stopFold_mem (c : ℚ) :
    ∀ (l : List (ℚ × ℚ)) (acc : Option (ℚ × ℚ)) (b : ℚ × ℚ),
      l.foldl (fun best sw =>
        let score := |(sw.1 - c) / c| * sw.2
        match best with
        | none => some (sw.1, score)
        | some bb => if score > bb.2 then some (sw.1, score) else some bb) acc = some b →
      acc = some b ∨ ∃ sw ∈ l, b.1 = sw.1
  | [], acc, b, h => Or.inl h
  | sw :: l, acc, b, h => by
    simp only [List.foldl_cons] at h
    cases acc with
    | none =>
      dsimp only at h
      rcases stopFold_mem c l _ b h with hacc | hmem
      · injection hacc with hacc
        exact Or.inr ⟨sw, List.mem_cons_self _ _, by rw [← hacc]⟩
      · obtain ⟨x, hx, hbx⟩ := hmem
        exact Or.inr ⟨x, List.mem_cons_of_mem _ hx, hbx⟩
    | some bb =>
      dsimp only at h
      rcases stopFold_mem c l _ b h with hacc | hmem
      · split_ifs at hacc
        · injection hacc with hacc
          exact Or.inr ⟨sw, List.mem_cons_self _ _, by rw [← hacc]⟩
        · exact Or.inl hacc
      · obtain ⟨x, hx, hbx⟩ := hmem
        exact Or.inr ⟨x, List.mem_cons_of_mem _ hx, hbx⟩

theorem calculateOptimalStopLoss_le_current (rt252 : ℚ) (ti : TechnicalIndicators)
    (profileType : String) (pd : PriceData) (c s : ℚ)
    (hrt : 0 < rt252) (hpd : ti.priceData = some pd) (hc : pd.current = some c)
    (hcpos : 0 < c)
    (hvol : ∀ vo v, ti.volatility = some vo → vo.value = some v → 0 ≤ v)
    (h : calculateOptimalStopLoss rt252 ti "long" profileType = some s) : s ≤ c := by
  simp only [calculateOptimalStopLoss, hpd, Option.bind, hc] at h
  split_ifs at h with hemp
  obtain ⟨⟨v, sc⟩, hfold, hvs⟩ := Option.map_eq_some'.1 h
  rcases stopFold_mem c _ none _ hfold with hacc | ⟨sw, hsw, hfst⟩
  · exact absurd hacc (by simp)
  · rw [← hvs]
    rw [hfst]
    exact possibleStops_long_le rt252 ti (normalizeProfile profileType) pd c hrt hpd hc
      hcpos hvol sw hsw

theorem calculateOptimalStopLoss_ge_current (rt252 : ℚ) (ti : TechnicalIndicators)
    (profileType : String) (pd : PriceData) (c s : ℚ)
    (hrt : 0 < rt252) (hpd : ti.priceData = some pd) (hc : pd.current = some c)
    (hcpos : 0 < c)
    (hvol : ∀ vo v, ti.volatility = some vo → vo.value = some v → 0 ≤ v)
    (h : calculateOptimalStopLoss rt252 ti "short" profileType = some s) : c ≤ s := by
  simp only [calculateOptimalStopLoss, hpd, Option.bind, hc] at h
  split_ifs at h with hemp
  obtain ⟨⟨v, sc⟩, hfold, hvs⟩ := Option.map_eq_some'.1 h
  rcases stopFold_mem c _ none _ hfold with hacc | ⟨sw, hsw, hfst⟩
  · exact absurd hacc (by simp)
  · rw [← hvs]
    rw [hfst]
    exact possibleStops_short_ge rt252 ti (normalizeProfile profileType) pd c hrt hpd hc
      hcpos hvol sw hsw
theorem jsTruthy_some (x : Option ℚ) (h : jsTruthy x = true) : ∃ v, x = some v := by
  cases x with
  | none => simp [jsTruthy] at h
  | some v => exact ⟨v, rfl⟩

theorem rrPass_inv (r : Option ℚ) (m : ℚ) (h : ¬ r.getD 0 < m) (hm : 6/5 ≤ m) :
    ∃ q, r = some q ∧ m ≤ q := by
  cases r with
  | none =>
    exact absurd (lt_of_lt_of_le (show (0 : ℚ) < 6/5 by norm_num) hm) (by simpa using h)
  | some q => exact ⟨q, rfl, le_of_not_lt (by simpa using h)⟩

theorem volC1_nonneg :
    ∀ vo v, adC1.technicalIndicators.volatility = some vo → vo.value = some v → 0 ≤ v := by
  intro vo v h1 h2
  have h1x : vo = ⟨some 0, none, none, none⟩ := by
    injection h1 with h1
    exact h1.symm
  subst h1x
  have h2x : v = 0 := by
    injection h2 with h2
    exact h2.symm
  subst h2x
  exact le_refl 0

/-- C1 (amended): whenever `generateMT4Order` returns a `valid = true` order —
given a positive `Math.sqrt(252)`, an available positive current price and a
nonnegative volatility value — the order's `riskReward` is a value at least
the profile's `getMinimumRiskRewardRatio`, and the stop loss lies on the loss
side of the *current price*: at most the current price for a BUY order and at
least it for a SELL order.  The original claim places the stop strictly on the
loss side of `entryPrice`; that is refuted by `claimC1_counterexample`, where
the entry is shifted below the current price by the profile deviation and the
stop lands between the two. -/
theorem claimC1 (rt252 : ℚ) (st : UserSettings) (ad : AnalysisData)
    (rec : String) (acct : AccountInfo) (o : MT4Order) (pd : PriceData) (c : ℚ)
    (hrt : 0 < rt252)
    (hpd : ad.technicalIndicators.priceData = some pd)
    (hc : pd.current = some c) (hcpos : 0 < c)
    (hvol : ∀ vo v, ad.technicalIndicators.volatility = some vo → vo.value = some v → 0 ≤ v)
    (hvalid : generateMT4Order rt252 st ad rec acct = some (.valid o)) :
    (∃ q, o.riskReward = some q ∧ getMinimumRiskReward ad.tradingProfile.name ≤ q) ∧
    (o.orderType = "BUY" → o.stopLoss ≤ c) ∧
    (o.orderType = "SELL" → c ≤ o.stopLoss) := by
  simp only [generateMT4Order] at hvalid
  split at hvalid
  · simp at hvalid
  next ot hot =>
    split at hvalid
    · simp at hvalid
    next entryOpt hep =>
      by_cases hb : ot = "BUY"
      · subst hb
        rw [show (if ("BUY" : String) = "BUY" then "long" else "short") = "long"
          from rfl] at hvalid
        split at hvalid
        · simp at hvalid
        next hlev =>
          split at hvalid
          next hrr =>
            split at hvalid <;> simp at hvalid
          next hrr =>
            simp only [not_or, not_not] at hlev
            obtain ⟨hE, hS, hT⟩ := hlev
            split at hvalid
            · simp at hvalid
            next vol hvm =>
              simp only [Option.some.injEq, OrderResult.valid.injEq] at hvalid
              subst hvalid
              dsimp only
              refine ⟨rrPass_inv _ _ hrr (getMinimumRiskReward_ge _), ?_, ?_⟩
              · intro hbuy
                obtain ⟨s, hs⟩ := jsTruthy_some _ hS
                rw [hs, Option.getD_some]
                exact calculateOptimalStopLoss_le_current rt252 _ _ pd c s hrt hpd hc
                  hcpos hvol hs
              · intro hsell
                exact absurd hsell (by decide)
      · rw [if_neg hb] at hvalid
        split at hvalid
        · simp at hvalid
        next hlev =>
          split at hvalid
          next hrr =>
            split at hvalid <;> simp at hvalid
          next hrr =>
            simp only [not_or, not_not] at hlev
            obtain ⟨hE, hS, hT⟩ := hlev
            split at hvalid
            · simp at hvalid
            next vol hvm =>
              simp only [Option.some.injEq, OrderResult.valid.injEq] at hvalid
              subst hvalid
              dsimp only
              refine ⟨rrPass_inv _ _ hrr (getMinimumRiskReward_ge _), ?_, ?_⟩
              · intro hbuy
                exact absurd hbuy hb
              · intro hsell
                obtain ⟨s, hs⟩ := jsTruthy_some _ hS
                rw [hs, Option.getD_some]
                exact calculateOptimalStopLoss_ge_current rt252 _ _ pd c s hrt hpd hc
                  hcpos hvol hs

theorem evalEntryC1 :
    calculateEntryPrice tiC1 "BUY" "Falco dello Scalping" = some (some (999/100)) := by
  simp only [calculateEntryPrice, tiC1,
    show normalizeProfile "Falco dello Scalping" = "falcodelloscalping" from rfl,
    show entryDeviationOf "falcodelloscalping" = 0.0015 from by simp [entryDeviationOf],
    jsRound2, jsRound]
  norm_num

theorem evalStopC1 :
    calculateOptimalStopLoss (127/8) tiC1 "long" "Falco dello Scalping" =
      some (19981/2000) := by
  simp only [calculateOptimalStopLoss, possibleStopsOf, tiC1,
    show normalizeProfile "Falco dello Scalping" = "falcodelloscalping" from rfl,
    show stopAtrMultiplier "falcodelloscalping" = 1.5 from by simp [stopAtrMultiplier],
    show stopPercentageOf "falcodelloscalping" = 0.005 from by simp [stopPercentageOf],
    findNearestSupportBelow, findNearestResistanceAbove, calculateATRStopLoss,
    findMABasedStopLoss, jsMaxList, jsMinList, Option.bind]
  norm_num [qabs_eq_ite]
  all_goals simp

theorem evalTargetC1 :
    calculateOptimalTargetPrice tiC1 "long" "Falco dello Scalping" =
      some (2003763/200000) := by
  simp only [calculateOptimalTargetPrice, potentialTargetsOf, tiC1,
    show normalizeProfile "Falco dello Scalping" = "falcodelloscalping" from rfl,
    show targetPercentageOf "falcodelloscalping" = 0.01 from by simp [targetPercentageOf],
    findNearestSupportBelow, findNearestResistanceAbove, calculateFibonacciTargetsLong,
    calculateFibonacciTargetsShort, jsMaxList, jsMinList, Option.bind, String.reduceEq]
  norm_num [qabs_eq_ite]
  all_goals simp

theorem evalOrderC1 :
    generateMT4Order (127/8) moneyManagementDefaults adC1 "Compra" ⟨some 10000⟩ =
      some (.valid orderC1) := by
  simp only [generateMT4Order,
    show determineOrderType "Compra" = some "BUY" from rfl,
    show adC1.technicalIndicators = tiC1 from rfl,
    show adC1.tradingProfile.name = "Falco dello Scalping" from rfl,
    show adC1.symbol = "ACME" from rfl,
    evalEntryC1, String.reduceEq, reduceIte, if_true, if_false,
    evalStopC1, evalTargetC1, Option.getD_some,
    show calculateRiskReward (999/100) (2003763/200000) (19981/2000) = some (5763/100)
      from by norm_num [calculateRiskReward, qabs_eq_ite],
    show getMinimumRiskReward "Falco dello Scalping" = 1.2 from by
      simp [getMinimumRiskReward,
        show normalizeProfile "Falco dello Scalping" = "falcodelloscalping" from rfl],
    show tiC1.volatility = some ⟨some 0, none, none, none⟩ from rfl,
    jsTruthy, orderC1]
  norm_num [bne_eq_false_iff_eq, calculatePositionSize, positionSizeNaive,
    positionSizeCeiling, jsRound2, jsRound, qabs_eq_ite]

/-- C1 counterexample to the original claim: on the scalping input `adC1` the
generated order is valid with order type BUY, yet its stop loss 9.9905 sits
strictly ABOVE its entry price 9.99 — the entry was shifted 0.15% below the
current price 10.008 while the chosen support stop was not. -/
theorem claimC1_counterexample :
    generateMT4Order (127/8) moneyManagementDefaults adC1 "Compra" ⟨some 10000⟩ =
      some (.valid orderC1) ∧
    orderC1.orderType = "BUY" ∧ orderC1.entryPrice < orderC1.stopLoss :=
  ⟨evalOrderC1, rfl, by norm_num [orderC1]⟩

/-- Witness for C1: every hypothesis of `claimC1` holds at the concrete
scalping input, and the conclusion follows by applying the theorem there. -/
theorem claimC1_witness :
    ((0 : ℚ) < 127/8 ∧
     adC1.technicalIndicators.priceData = some ⟨some (1251/125), none⟩ ∧
     (⟨some (1251/125), none⟩ : PriceData).current = some (1251/125) ∧
     (0 : ℚ) < 1251/125 ∧
     (∀ vo v, adC1.technicalIndicators.volatility = some vo → vo.value = some v → 0 ≤ v) ∧
     generateMT4Order (127/8) moneyManagementDefaults adC1 "Compra" ⟨some 10000⟩ =
       some (.valid orderC1)) ∧
    ((∃ q, orderC1.riskReward = some q ∧ getMinimumRiskReward adC1.tradingProfile.name ≤ q) ∧
     (orderC1.orderType = "BUY" → orderC1.stopLoss ≤ 1251/125) ∧
     (orderC1.orderType = "SELL" → (1251/125 : ℚ) ≤ orderC1.stopLoss)) :=
  ⟨⟨by norm_num, rfl, rfl, by norm_num, volC1_nonneg, evalOrderC1⟩,
   claimC1 (127/8) moneyManagementDefaults adC1 "Compra" ⟨some 10000⟩ orderC1
     ⟨some (1251/125), none⟩ (1251/125) (by norm_num) rfl rfl (by norm_num)
     volC1_nonneg evalOrderC1⟩

end TradingAI
